import Mathlib

/-!
Verification development for the Reddit evidence-gathering and
sentiment-synthesis pipeline of the repository (the `RedditClient` class
and the `/api/narrative` route).  The TypeScript source is shallowly
embedded: strings are processed as `List Char`, JavaScript regular
expressions are compiled to a small executable regex AST (`RE`) with a
backtracking matcher that mirrors JS leftmost / greedy preference order,
the stable in-place `Array.prototype.sort` is modelled by the stable
`List.insertionSort`, an insertion-ordered JS `Map` is modelled by an
association list, and all network effects are supplied as explicit
oracle parameters.
-/

/-- JS `String.prototype.toLowerCase` on one ASCII character (the source
only matches ASCII pattern text). -/
def lowerChar (c : Char) : Char :=
  if 65 ≤ c.toNat && c.toNat ≤ 90 then Char.ofNat (c.toNat + 32) else c

/-- Lower-case a character list, modelling `toLowerCase()`. -/
def lowerStr (s : List Char) : List Char := s.map lowerChar

/-- JS `\w`: ASCII letters, digits and underscore. -/
def isWordChar (c : Char) : Bool := c.isAlphanum || c = '_'

/-- JS `\s` (whitespace class). -/
def isSpaceChar (c : Char) : Bool := c.isWhitespace

/-- JS `String.prototype.includes`: substring containment. -/
def strIncludes (haystack needle : List Char) : Bool :=
  decide (needle <:+: haystack)

/-- Regular-expression AST for the fragment of JS regex syntax the
source uses: character classes, concatenation, alternation, Kleene star
and numbered capture groups.  All source regexes carry the `i` flag, so
case folding is baked into the character classes at compilation time. -/
inductive RE : Type where
  | eps : RE
  | cls : (Char → Bool) → RE
  | seq : RE → RE → RE
  | alt : RE → RE → RE
  | star : RE → RE
  | grp : Nat → RE → RE

/-- Captured groups of a match: group index paired with captured text. -/
abbrev Caps := List (Nat × List Char)

/-- One match result: consumed prefix, captures, remaining input. -/
abbrev MRes := List Char × Caps × List Char

/-- Matcher step at exhausted fuel: a `star` matches only the empty
repetition; all other constructors recurse structurally. -/
def matchZero : RE → List Char → List MRes
  | RE.eps, s => [([], [], s)]
  | RE.cls _, [] => []
  | RE.cls p, c :: cs => if p c then [([c], [], cs)] else []
  | RE.seq r1 r2, s =>
      (matchZero r1 s).flatMap fun t1 =>
        (matchZero r2 t1.2.2).map fun t2 =>
          (t1.1 ++ t2.1, t1.2.1 ++ t2.2.1, t2.2.2)
  | RE.alt r1 r2, s => matchZero r1 s ++ matchZero r2 s
  | RE.grp n r, s =>
      (matchZero r s).map fun t => (t.1, (n, t.1) :: t.2.1, t.2.2)
  | RE.star _, s => [([], [], s)]

/-- Matcher step with fuel left: `recStar` resolves a `star`'s
continuation at one unit of fuel less. -/
def matchS (recStar : RE → List Char → List MRes) : RE → List Char → List MRes
  | RE.eps, s => [([], [], s)]
  | RE.cls _, [] => []
  | RE.cls p, c :: cs => if p c then [([c], [], cs)] else []
  | RE.seq r1 r2, s =>
      (matchS recStar r1 s).flatMap fun t1 =>
        (matchS recStar r2 t1.2.2).map fun t2 =>
          (t1.1 ++ t2.1, t1.2.1 ++ t2.2.1, t2.2.2)
  | RE.alt r1 r2, s => matchS recStar r1 s ++ matchS recStar r2 s
  | RE.grp n r, s =>
      (matchS recStar r s).map fun t => (t.1, (n, t.1) :: t.2.1, t.2.2)
  | RE.star r, s =>
      (((matchS recStar r s).filter fun t => !t.1.isEmpty).flatMap fun t1 =>
        (recStar (RE.star r) t1.2.2).map fun t2 =>
          (t1.1 ++ t2.1, t1.2.1 ++ t2.2.1, t2.2.2))
      ++ [([], [], s)]

/-- Backtracking matcher.  `matchCore fuel r s` returns every way `r`
can match a prefix of `s`, as `(consumed, captures, rest)` triples, in
JS preference order (a `seq` backtracks its left component first, an
`alt` prefers its left branch, a `star` is greedy).  `fuel` bounds the
number of star iterations; since every counted iteration consumes at
least one character, `s.length + 1` fuel is always enough. -/
def matchCore : Nat → RE → List Char → List MRes
  | 0 => matchZero
  | fuel + 1 => matchS (matchCore fuel)

/-- First (JS-preferred) match of `r` at the very start of `s`. -/
def matchAt (r : RE) (s : List Char) : Option (List Char × Caps) :=
  match matchCore (s.length + 1) r s with
  | [] => none
  | t :: _ => some (t.1, t.2.1)

/-- All suffixes of `s`, longest first (match positions left to right). -/
def suffixes : List Char → List (List Char)
  | [] => [[]]
  | c :: cs => (c :: cs) :: suffixes cs

/-- JS `String.prototype.match` (no `g` flag): the leftmost match with
its captures, or `none`. -/
def jsMatch (r : RE) (s : List Char) : Option (List Char × Caps) :=
  match s with
  | [] => matchAt r []
  | c :: cs =>
      match matchAt r (c :: cs) with
      | some t => some t
      | none => jsMatch r cs

/-- JS `RegExp.prototype.test`. -/
def reTest (r : RE) (s : List Char) : Bool := (jsMatch r s).isSome

/-- Look up a capture group in a match result (JS `match[n]`).  A group
not traversed by the chosen alternative is absent (`undefined`). -/
def capGet (caps : Caps) (n : Nat) : Option (List Char) :=
  match caps.find? fun p => p.1 = n with
  | some p => some p.2
  | none => none

/-- JS `\bw\b` for a single word `w`: an occurrence of `w` (case
insensitive) bounded on both sides by a non-word character or the
string edge.  The four source patterns using `\b` all have this shape. -/
def boundaryOk : Option Char → Bool
  | none => true
  | some c => !isWordChar c

/-- Auxiliary scan for `testWordBounded`, tracking the previous char. -/
def twbAux (w : List Char) (prev : Option Char) : List Char → Bool
  | [] => false
  | c :: cs =>
      (boundaryOk prev
        && lowerStr w <+: lowerStr (c :: cs)
        && boundaryOk ((c :: cs).drop w.length).head?)
      || twbAux w (some c) cs

/-- JS `/\bw\b/i.test(s)`. -/
def testWordBounded (w s : List Char) : Bool := twbAux w none s

/-! Combinators compiling the concrete JS regexes to `RE`.  Every
source regex has the `i` flag, so literals compare case-folded. -/

/-- One case-insensitive literal character. -/
def chr (c : Char) : RE := RE.cls fun x => lowerChar x = lowerChar c

/-- A case-insensitive literal string. -/
def lit (s : String) : RE := s.data.foldr (fun c r => RE.seq (chr c) r) RE.eps

/-- Concatenation of a list of regexes. -/
def reSeq (l : List RE) : RE := l.foldr RE.seq RE.eps

/-- `\s*`. -/
def wsStar : RE := RE.star (RE.cls isSpaceChar)

/-- `\s` repeated at least once (`\s+`). -/
def wsPlus : RE := RE.seq (RE.cls isSpaceChar) wsStar

/-- `r?` (greedy: presence preferred). -/
def opt (r : RE) : RE := RE.alt r RE.eps

/-- `r+`. -/
def rePlus (r : RE) : RE := RE.seq r (RE.star r)

/-- `\d`. -/
def digit : RE := RE.cls Char.isDigit

/-- `\d+`. -/
def digits : RE := rePlus digit

/-- `\w`. -/
def wordCls : RE := RE.cls isWordChar

/-- `[\w\s]`. -/
def wordOrSpace : RE := RE.cls fun c => isWordChar c || isSpaceChar c

/-- JS `.` (anything but a line terminator). -/
def dot : RE := RE.cls fun c => c ≠ '\n' && c ≠ '\r'

/-- `r{0,n}`, greedy (longer repetitions preferred). -/
def upTo : Nat → RE → RE
  | 0, _ => RE.eps
  | n + 1, r => RE.alt (RE.seq r (upTo n r)) RE.eps

/-- `.{0,n}`. -/
def anyUpTo (n : Nat) : RE := upTo n dot

/-- A case-insensitive character class listed by its members. -/
def oneOf (s : String) : RE :=
  RE.cls fun c => s.data.any fun d => lowerChar d = lowerChar c

/-! Data model of the Reddit client (`interface RedditPost` etc.). -/

/-- A fetched Reddit post.  `score` may be negative; `num_comments` and
`created_utc` are kept as integers (seconds since epoch). -/
structure RedditPost where
  title : String
  selftext : String
  url : String
  permalink : String
  score : Int
  num_comments : Int
  subreddit : String
  created_utc : Int
deriving DecidableEq

instance : Inhabited RedditPost := ⟨⟨"", "", "", "", 0, 0, "", 0⟩⟩

/-- `interface SentimentData`. -/
structure SentimentData where
  bullishPosts : List RedditPost
  bearishPosts : List RedditPost
  neutralPosts : List RedditPost
  keyThemes : List String
  sources : List String
deriving DecidableEq

/-- Engagement of a post, the `score + num_comments` expression used by
every sort comparator in the source. -/
def engagement (p : RedditPost) : Int := p.score + p.num_comments

/-- The descending-engagement comparator
`(a, b) => (b.score + b.num_comments) - (a.score + a.num_comments)`,
read as the sort relation it induces. -/
def engGe (a b : RedditPost) : Prop := engagement b ≤ engagement a

instance : DecidableRel engGe := fun a b => by unfold engGe; infer_instance

instance : IsTotal RedditPost engGe := ⟨fun a b => le_total (engagement b) (engagement a)⟩

instance : IsTrans RedditPost engGe := ⟨fun _ _ _ h1 h2 => le_trans h2 h1⟩

/-- Stable in-place `Array.prototype.sort` with the descending
engagement comparator, modelled by the stable `List.insertionSort`. -/
def sortByEngagement (posts : List RedditPost) : List RedditPost :=
  List.insertionSort engGe posts

/-- The `${post.title} ${post.selftext}` concatenation. -/
def postText (p : RedditPost) : List Char := p.title.data ++ ' ' :: p.selftext.data

/-- One sentiment pattern: a test (a compiled regex or a `\bw\b` word
test) with its signed weight and explanatory reason label. -/
structure SentimentPattern where
  test : List Char → Bool
  score : Int
  reason : String

/-- The `sentimentPatterns` catalog of `analyzePostSentiment`, in source
order. -/
def sentimentPatterns : List SentimentPattern := [
  ⟨reTest (reSeq [lit "strong", wsStar, lit "buy"]), 3, "strong buy signal"⟩,
  ⟨reTest (reSeq [lit "call", opt (lit "s"), wsStar, lit "on", wsStar,
      opt (lit "$"), rePlus wordCls]), 2, "call options"⟩,
  ⟨reTest (reSeq [lit "loading", wsStar, lit "up"]), 2, "accumulation"⟩,
  ⟨reTest (lit "undervalued"), 2, "undervaluation"⟩,
  ⟨reTest (reSeq [lit "buy", wsStar, lit "the", wsStar, lit "dip"]), 2, "dip buying"⟩,
  ⟨reTest (reSeq [lit "to", wsStar, lit "the", wsStar, lit "moon"]), 2, "extreme bullishness"⟩,
  ⟨reTest (reSeq [lit "earnings", wsStar, lit "beat"]), 2, "earnings beat"⟩,
  ⟨reTest (reSeq [lit "raised", wsStar, lit "guidance"]), 2, "raised guidance"⟩,
  ⟨testWordBounded "buy".data, 1, "buy recommendation"⟩,
  ⟨testWordBounded "long".data, 1, "long position"⟩,
  ⟨reTest (lit "bullish"), 1, "bullish sentiment"⟩,
  ⟨reTest (lit "upside"), 1, "upside potential"⟩,
  ⟨reTest (lit "growth"), 1, "growth prospects"⟩,
  ⟨reTest (reSeq [lit "strong", wsStar, lit "sell"]), -3, "strong sell signal"⟩,
  ⟨reTest (reSeq [lit "put", opt (lit "s"), wsStar, lit "on", wsStar,
      opt (lit "$"), rePlus wordCls]), -2, "put options"⟩,
  ⟨reTest (lit "overvalued"), -2, "overvaluation"⟩,
  ⟨reTest (reSeq [lit "stay", wsStar, lit "away"]), -2, "avoid recommendation"⟩,
  ⟨reTest (lit "bubble"), -2, "bubble concerns"⟩,
  ⟨reTest (reSeq [lit "earnings", wsStar, lit "miss"]), -2, "earnings miss"⟩,
  ⟨reTest (reSeq [lit "lowered", wsStar, lit "guidance"]), -2, "lowered guidance"⟩,
  ⟨testWordBounded "sell".data, -1, "sell recommendation"⟩,
  ⟨testWordBounded "short".data, -1, "short position"⟩,
  ⟨reTest (lit "bearish"), -1, "bearish sentiment"⟩,
  ⟨reTest (lit "downside"), -1, "downside risk"⟩,
  ⟨reTest (lit "declining"), -1, "declining metrics"⟩]

/-- The `metricPatterns` catalog of `analyzePostSentiment`. -/
def metricPatterns : List SentimentPattern := [
  ⟨reTest (reSeq [digits, lit "%", wsStar, lit "growth"]), 1, "growth metrics"⟩,
  ⟨reTest (reSeq [digits, lit "%", wsStar, lit "decline"]), -1, "decline metrics"⟩,
  ⟨reTest (reSeq [lit "p/e", wsStar, opt (reSeq [lit "ratio", wsStar]),
      opt (reSeq [lit "of", wsStar]), digits]), 0, "valuation discussion"⟩]

/-- `analyzePostSentiment(post, company)`: lower-cases title and body,
applies both catalogs in order, summing weights of matching patterns
and collecting their reason labels.  (`company` is unused by the source
body; the parameter is kept for signature fidelity.) -/
def analyzePostSentiment (post : RedditPost) (company : String) : Int × List String :=
  let _ := company
  let text := lowerStr (postText post)
  let step := fun (acc : Int × List String) (p : SentimentPattern) =>
    if p.test text then (acc.1 + p.score, acc.2 ++ [p.reason]) else acc
  let acc1 := sentimentPatterns.foldl step (0, [])
  metricPatterns.foldl step acc1

/-- The sentiment score of a post (first component of the verdict). -/
def postScore (post : RedditPost) (company : String) : Int :=
  (analyzePostSentiment post company).1

/-! JS `Map` (insertion-ordered) modelled as an association list. -/

/-- `map.get(k)` for a counting map. -/
def mapGet (m : List (String × Nat)) (k : String) : Option Nat :=
  match m.find? fun p => p.1 = k with
  | some p => some p.2
  | none => none

/-- `map.set(k, v)`: update in place if present, else append (JS `Map`
preserves first-insertion order). -/
def mapSet (m : List (String × Nat)) (k : String) (v : Nat) : List (String × Nat) :=
  if (m.find? fun p => p.1 = k).isSome then
    m.map fun p => if p.1 = k then (p.1, v) else p
  else m ++ [(k, v)]

/-- The `detailedThemePatterns` catalog of `extractDetailedThemes`, in
source order. -/
def detailedThemePatterns : List ((List Char → Bool) × String) := [
  (reTest (reSeq [lit "earning", opt (lit "s"), wsStar,
    RE.alt (lit "report") (RE.alt (reSeq [lit "result", opt (lit "s")])
      (RE.alt (lit "beat") (lit "miss")))]), "Earnings Performance"),
  (reTest (reSeq [lit "revenue", wsStar,
    RE.alt (lit "growth") (RE.alt (lit "decline") (RE.alt (lit "beat") (lit "miss")))]),
    "Revenue Trends"),
  (reTest (reSeq [lit "guidanc", opt (lit "e"), wsStar,
    RE.alt (lit "raised") (RE.alt (lit "lowered") (lit "maintained"))]), "Forward Guidance"),
  (reTest (reSeq [lit "margin", wsStar,
    RE.alt (lit "expansion") (RE.alt (lit "compression") (lit "improvement"))]),
    "Profit Margins"),
  (reTest (RE.alt (reSeq [lit "cash", wsStar, lit "flow"])
    (reSeq [lit "free", wsStar, lit "cash"])), "Cash Generation"),
  (reTest (RE.alt (reSeq [lit "p/e", wsStar, opt (lit "ratio")])
    (reSeq [lit "price", wsStar, lit "earnings"])), "P/E Valuation"),
  (reTest (reSeq [lit "price", wsStar, lit "target"]), "Price Targets"),
  (reTest (reSeq [RE.alt (lit "under") (lit "over"), lit "valued"]), "Valuation Views"),
  (reTest (reSeq [lit "market", wsStar, lit "cap"]), "Market Capitalization"),
  (reTest (reSeq [lit "product", wsStar,
    RE.alt (lit "launch") (RE.alt (lit "announcement") (lit "innovation"))]),
    "Product Innovation"),
  (reTest (RE.alt (lit "ai") (RE.alt
    (reSeq [lit "artificial", wsStar, lit "intelligence"])
    (reSeq [lit "machine", wsStar, lit "learning"]))), "AI/Technology"),
  (reTest (RE.alt (lit "expansion") (reSeq [lit "new", wsStar, lit "market"])),
    "Market Expansion"),
  (reTest (RE.alt (reSeq [lit "user", wsStar, lit "growth"])
    (reSeq [lit "customer", wsStar, lit "acquisition"])), "User Growth"),
  (reTest (RE.alt (lit "competition") (RE.alt (lit "competitor")
    (reSeq [lit "market", wsStar, lit "share"]))), "Competitive Position"),
  (reTest (reSeq [lit "industry", wsStar, RE.alt (lit "leader") (lit "trends")]),
    "Industry Position"),
  (reTest (RE.alt (lit "disruption") (lit "disrupt")), "Market Disruption"),
  (reTest (RE.alt (lit "regulation") (RE.alt (lit "regulatory") (lit "government"))),
    "Regulatory Issues"),
  (reTest (RE.alt (lit "lawsuit") (RE.alt (lit "legal") (lit "litigation"))),
    "Legal Concerns"),
  (reTest (RE.alt (lit "debt") (RE.alt (lit "leverage")
    (reSeq [lit "balance", wsStar, lit "sheet"]))), "Financial Health"),
  (reTest (RE.alt (lit "recession") (lit "macro")), "Macro Risks"),
  (reTest (reSeq [lit "option", opt (lit "s"), wsStar,
    RE.alt (lit "flow") (lit "activity")]), "Options Activity"),
  (reTest (reSeq [lit "institutional", wsStar,
    RE.alt (lit "buying") (lit "selling")]), "Institutional Flow"),
  (reTest (reSeq [lit "insider", wsStar, RE.alt (lit "buying") (lit "selling")]),
    "Insider Trading"),
  (reTest (reSeq [lit "short", wsStar, RE.alt (lit "interest") (lit "squeeze")]),
    "Short Interest"),
  (reTest (RE.alt (lit "support") (lit "resistance")), "Technical Levels"),
  (reTest (reSeq [lit "moving", wsStar, lit "average"]), "Moving Averages"),
  (reTest (RE.alt (lit "breakout") (lit "breakdown")), "Chart Patterns")]

/-- `extractDetailedThemes(text, themes)`: bump the counter of every
theme whose pattern matches the raw (not lower-cased, but the regexes
are case-insensitive) text. -/
def extractDetailedThemes (text : List Char) (themes : List (String × Nat)) :
    List (String × Nat) :=
  detailedThemePatterns.foldl
    (fun m pt =>
      if pt.1 text then mapSet m pt.2 ((mapGet m pt.2).getD 0 + 1) else m)
    themes

/-- Descending-count comparator `(a, b) => b[1] - a[1]` on map entries,
as a sort relation. -/
def countGe (a b : String × Nat) : Prop := b.2 ≤ a.2

instance : DecidableRel countGe := fun a b => by unfold countGe; infer_instance

instance : IsTotal (String × Nat) countGe := ⟨fun a b => Nat.le_total b.2 a.2⟩

instance : IsTrans (String × Nat) countGe := ⟨fun _ _ _ h1 h2 => le_trans h2 h1⟩

/-- `analyzeSentiment(posts, company)`: buckets every post by the
thresholded sentiment score (`> 1` bullish, `< -1` bearish, otherwise
neutral — the `forEach` pushes in input order, which a filter mirrors),
sorts each bucket by engagement, tallies themes in input order, keeps
the five most frequent theme labels, and records the first ten
permalinks in input order as sources. -/
def analyzeSentiment (posts : List RedditPost) (company : String) : SentimentData :=
  let bullish := posts.filter fun p => decide (1 < postScore p company)
  let bearish := posts.filter fun p =>
    !decide (1 < postScore p company) && decide (postScore p company < -1)
  let neutral := posts.filter fun p =>
    !decide (1 < postScore p company) && !decide (postScore p company < -1)
  let themes := posts.foldl (fun m p => extractDetailedThemes (postText p) m) []
  let keyThemes := ((List.insertionSort countGe themes).take 5).map Prod.fst
  { bullishPosts := sortByEngagement bullish
    bearishPosts := sortByEngagement bearish
    neutralPosts := sortByEngagement neutral
    keyThemes := keyThemes
    sources := (posts.map fun p => p.permalink).take 10 }

/-! The multi-strategy search executor and its inline filter
(`gatherCompanyData`), the deduplicator, and the OAuth token manager. -/

/-- A raw search item as exposed by the Reddit listing (`child.data`). -/
structure RawChild where
  title : String
  selftext : String
  url : String
  permalink : String
  score : Int
  num_comments : Int
  subreddit : String
  created_utc : Int
deriving DecidableEq

/-- Company-mention predicate: the lower-cased company identifier is a
substring of the lower-cased title or body.  (The source tests title
and text twice with identical expressions; the duplicate conjuncts are
logically absorbed.) -/
def hasCompanyMention (company : String) (c : RawChild) : Bool :=
  strIncludes (lowerStr c.title.data) (lowerStr company.data)
    || strIncludes (lowerStr c.selftext.data) (lowerStr company.data)

/-- Generic recurring-thread denylist on the lower-cased title. -/
def isGeneric (c : RawChild) : Bool :=
  strIncludes (lowerStr c.title.data) "daily discussion".data
    || strIncludes (lowerStr c.title.data) "weekend discussion".data
    || strIncludes (lowerStr c.title.data) "what are your moves".data
    || strIncludes (lowerStr c.title.data) "weekly thread".data
    || strIncludes (lowerStr c.title.data) "rate my portfolio".data

/-- Minimum-engagement predicate `score >= 5 || num_comments >= 3`. -/
def hasEngagement (c : RawChild) : Bool :=
  decide (5 ≤ c.score) || decide (3 ≤ c.num_comments)

/-- Recency predicate: `created_utc >= Date.now() / 1000 - 90*24*60*60`.
`now` is the value of `Date.now() / 1000` (seconds, rational since the
JS division is exact only up to milliseconds). -/
def isRecent (now : ℚ) (c : RawChild) : Bool :=
  decide ((c.created_utc : ℚ) ≥ now - 90 * 24 * 60 * 60)

/-- The inline candidate filter of `gatherCompanyData`:
`hasCompanyMention && !isGeneric && hasEngagement && isRecent`. -/
def passesFilter (company : String) (now : ℚ) (c : RawChild) : Bool :=
  hasCompanyMention company c && !isGeneric c && hasEngagement c && isRecent now c

/-- The `.map` step turning a surviving raw child into a `RedditPost`
(the permalink gains the `https://reddit.com` prefix). -/
def toPost (c : RawChild) : RedditPost :=
  { title := c.title
    selftext := c.selftext
    url := c.url
    permalink := "https://reddit.com" ++ c.permalink
    score := c.score
    num_comments := c.num_comments
    subreddit := c.subreddit
    created_utc := c.created_utc }

/-- Filter-and-map applied to one successful response's children. -/
def processChildren (company : String) (now : ℚ) (children : List RawChild) :
    List RedditPost :=
  (children.filter (passesFilter company now)).map toPost

/-- The fixed subreddit list `STOCK_SUBREDDITS`. -/
def STOCK_SUBREDDITS : List String := [
  "stocks", "wallstreetbets", "investing", "StockMarket", "options",
  "SecurityAnalysis", "valueinvesting", "pennystocks", "smallstreetbets",
  "thetagang", "dividends", "stockstobuy", "daytrading", "algotrading",
  "UKInvesting", "CanadianInvestor", "ASX_Bets", "IndiaInvestments",
  "EuropeInvesting"]

/-- One entry of the `searchStrategies` array. -/
structure SearchStrategy where
  query : String
  subreddits : List String
deriving DecidableEq

/-- The fixed ordered `searchStrategies` list of `gatherCompanyData`. -/
def searchStrategies (company : String) : List SearchStrategy := [
  ⟨company, STOCK_SUBREDDITS.take 5⟩,
  ⟨company, STOCK_SUBREDDITS.take 5⟩,
  ⟨"\"" ++ company ++ "\"", (STOCK_SUBREDDITS.drop 5).take 5⟩,
  ⟨company ++ " DD", ["stocks", "wallstreetbets", "investing"]⟩,
  ⟨company ++ " analysis", ["SecurityAnalysis", "valueinvesting"]⟩,
  ⟨company ++ " bullish", ["wallstreetbets", "options"]⟩,
  ⟨company ++ " bearish", ["stocks", "investing"]⟩]

/-- The network oracle for one search request: `none` models a thrown
fetch/parse error or a non-success HTTP status (both leave the
accumulator untouched and continue the loop), `some children` a
successful response body. -/
def SearchOracle : Type := String → String → Option (List RawChild)

/-- A record of one issued search request: its query, subreddit, and
the accumulated raw candidate count at the moment it was issued. -/
structure LogEntry where
  query : String
  subreddit : String
  countBefore : Nat
deriving DecidableEq

/-- Inner loop of the search executor (`for (const subreddit of
subreddits)`): issues one request per subreddit, appends the filtered
posts of successful responses, and breaks as soon as the accumulated
count reaches 200 (checked after each successful accumulation). -/
def runSubreddits (company : String) (now : ℚ) (oracle : SearchOracle)
    (query : String) : List String → List RedditPost →
    List RedditPost × List LogEntry
  | [], acc => (acc, [])
  | sub :: rest, acc =>
      match oracle query sub with
      | none =>
          let r := runSubreddits company now oracle query rest acc
          (r.1, ⟨query, sub, acc.length⟩ :: r.2)
      | some children =>
          let acc1 := acc ++ processChildren company now children
          if 200 ≤ acc1.length then (acc1, [⟨query, sub, acc.length⟩])
          else
            let r := runSubreddits company now oracle query rest acc1
            (r.1, ⟨query, sub, acc.length⟩ :: r.2)

/-- Outer loop of the search executor (`for (const { query, subreddits }
of searchStrategies)`), with the post-inner-loop cap check `if
(allPosts.length >= 200) break`. -/
def runStrategies (company : String) (now : ℚ) (oracle : SearchOracle) :
    List SearchStrategy → List RedditPost → List RedditPost × List LogEntry
  | [], acc => (acc, [])
  | s :: rest, acc =>
      let r1 := runSubreddits company now oracle s.query s.subreddits acc
      if 200 ≤ r1.1.length then (r1.1, r1.2)
      else
        let r2 := runStrategies company now oracle rest r1.1
        (r2.1, r1.2 ++ r2.2)

/-- `deduplicatePosts(posts)`: keep a post iff its permalink has not
been seen yet, scanning left to right (the `seen` set accumulates). -/
def dedupeGo (seen : List String) : List RedditPost → List RedditPost
  | [] => []
  | p :: ps =>
      if p.permalink ∈ seen then dedupeGo seen ps
      else p :: dedupeGo (p.permalink :: seen) ps

/-- `deduplicatePosts` with an initially empty seen set. -/
def deduplicatePosts (posts : List RedditPost) : List RedditPost :=
  dedupeGo [] posts

/-- The raw accumulated posts of a full gathering run. -/
def allPostsOf (company : String) (now : ℚ) (oracle : SearchOracle) :
    List RedditPost :=
  (runStrategies company now oracle (searchStrategies company) []).1

/-- The request log of a full gathering run. -/
def searchLogOf (company : String) (now : ℚ) (oracle : SearchOracle) :
    List LogEntry :=
  (runStrategies company now oracle (searchStrategies company) []).2

/-- The post-network tail of `gatherCompanyData`: deduplicate, sort by
engagement, truncate to the top 150. -/
def topPostsOf (company : String) (now : ℚ) (oracle : SearchOracle) :
    List RedditPost :=
  ((sortByEngagement (deduplicatePosts (allPostsOf company now oracle))).take 150)

/-- `gatherCompanyData(company)` after token acquisition: run the
search strategies, deduplicate, sort, truncate, and classify. -/
def gatherCompanyData (company : String) (now : ℚ) (oracle : SearchOracle) :
    SentimentData :=
  analyzeSentiment (topPostsOf company now oracle) company

/-! Token manager (`getAccessToken`). -/

/-- The mutable token cache (`accessToken`, `tokenExpiry`) of the
client.  `tokenExpiry` is in milliseconds, as compared against
`Date.now()`. -/
structure TokenState where
  accessToken : Option String
  tokenExpiry : Int
deriving DecidableEq

/-- JS truthiness of `this.accessToken` (null and the empty string are
falsy). -/
def tokenTruthy : Option String → Bool
  | none => false
  | some t => t ≠ ""

/-- Outcome of the credential-exchange request: a non-success HTTP
status, or the parsed `{access_token, expires_in}` payload (lifetime in
seconds). -/
def ExchangeOutcome : Type := Except Nat (String × Int)

/-- `getAccessToken()` as a state transformer.  Returns the credential,
the new cache state, and whether a network call was made; a non-success
exchange status `s` throws (`Except.error s`, the `AuthError`).  On
success the source stores the token, sets
`tokenExpiry = Date.now() + expires_in * 1000`, and returns
`this.accessToken || ""` (which equals the stored token, the guard only
papering over an empty-string token). -/
def getAccessToken (st : TokenState) (nowMs : Int) (exchange : ExchangeOutcome) :
    Except Nat (String × TokenState × Bool) :=
  if tokenTruthy st.accessToken && decide (nowMs < st.tokenExpiry) then
    Except.ok (st.accessToken.getD "", st, false)
  else
    match exchange with
    | Except.error status => Except.error status
    | Except.ok (tok, expiresIn) =>
        let st1 : TokenState :=
          { accessToken := some tok, tokenExpiry := nowMs + expiresIn * 1000 }
        Except.ok (tok, st1, true)

/-! Narrative synthesis (`generateNarrative` and its five generator
routines). -/

/-- JS `String.prototype.trim`. -/
def trimChars (s : List Char) : List Char :=
  ((s.dropWhile isSpaceChar).reverse.dropWhile isSpaceChar).reverse

/-- `Math.round` (round half toward positive infinity). -/
def jsRound (q : ℚ) : Int := ⌊q + 1 / 2⌋

/-- JS `Number.prototype.toFixed(1)` (round to nearest tenth, ties
toward positive infinity, rendered with one decimal digit). -/
def toFixed1 (q : ℚ) : String :=
  let n : Int := ⌊q * 10 + 1 / 2⌋
  let sign := if n < 0 then "-" else ""
  sign ++ toString (n.natAbs / 10) ++ "." ++ toString (n.natAbs % 10)

/-- JS `x || d` for strings (empty string is falsy). -/
def jsOrStr (x d : String) : String := if x = "" then d else x

/-- A capture group as a `String` (empty when absent). -/
def capStr (caps : Caps) (n : Nat) : String :=
  match capGet caps n with
  | some l => ⟨l⟩
  | none => ""

/-- Generic insertion-ordered JS `Map` lookup. -/
def amGet {α : Type} (m : List (String × α)) (k : String) : Option α :=
  match m.find? fun p => p.1 = k with
  | some p => some p.2
  | none => none

/-- `map.has(k)`. -/
def amHas {α : Type} (m : List (String × α)) (k : String) : Bool :=
  (m.find? fun p => p.1 = k).isSome

/-- `map.set(k, v)` (insertion order preserved, append when new). -/
def amSet {α : Type} (m : List (String × α)) (k : String) (v : α) :
    List (String × α) :=
  if amHas m k then m.map fun p => if p.1 = k then (p.1, v) else p
  else m ++ [(k, v)]

/-- Mutation of the entry behind `map.get(k)!`. -/
def amUpd {α : Type} (m : List (String × α)) (k : String) (f : α → α) :
    List (String × α) :=
  m.map fun p => if p.1 = k then (p.1, f p.2) else p

/-- The source's `if (!m.has(k)) m.set(k, d)` initialisation step. -/
def amEnsure {α : Type} (m : List (String × α)) (k : String) (d : α) :
    List (String × α) :=
  if amHas m k then m else amSet m k d

/-- `Array.from(m.entries()).sort((a, b) => key(b) - key(a))`: stable
descending sort of map entries by a numeric key. -/
def sortEntriesByCount {α : Type} (f : α → Nat) (m : List (String × α)) :
    List (String × α) :=
  List.insertionSort (fun a b => f b.2 ≤ f a.2) m

/-- One entry of the `driverPatterns` catalog of
`extractPrimarySentimentDriver`. -/
structure DriverPattern where
  pattern : RE
  driver : String
  extract : Bool

/-- The `driverPatterns` catalog, in source order. -/
def driverPatterns : List DriverPattern := [
  ⟨reSeq [lit "earnings", anyUpTo 20, RE.grp 1 (RE.alt (reSeq [digits, lit "%"])
    (RE.alt (lit "beat") (lit "miss")))], "earnings", true⟩,
  ⟨reSeq [lit "revenue", anyUpTo 20, RE.grp 1 (RE.alt (reSeq [digits, lit "%"])
    (RE.alt (lit "growth") (lit "decline")))], "revenue", true⟩,
  ⟨reSeq [lit "guidance", anyUpTo 20, RE.grp 1 (RE.alt (lit "raised")
    (RE.alt (lit "lowered") (lit "cut")))], "guidance", true⟩,
  ⟨reSeq [lit "p/e", anyUpTo 20, RE.grp 1 digits], "valuation", true⟩,
  ⟨RE.alt (lit "competition") (RE.alt (lit "competitor") (lit "market share")),
    "competition", false⟩,
  ⟨RE.alt (lit "product") (RE.alt (lit "launch") (lit "innovation")),
    "product", false⟩,
  ⟨RE.alt (lit "debt") (RE.alt (lit "cash") (lit "balance sheet")),
    "financials", false⟩]

/-- Map value of the `drivers` map: occurrence count and the first
extracted example text (source field `example`, a Lean keyword). -/
structure DriverEntry where
  count : Nat
  exampleText : String
deriving DecidableEq

/-- One post's contribution to the `drivers` map. -/
def driverStep (text : List Char) (m : List (String × DriverEntry)) :
    List (String × DriverEntry) :=
  driverPatterns.foldl
    (fun m dp =>
      match jsMatch dp.pattern text with
      | none => m
      | some t =>
          let m1 := amEnsure m dp.driver ⟨0, ""⟩
          amUpd m1 dp.driver fun e =>
            { count := e.count + 1
              exampleText :=
                if dp.extract && capStr t.2 1 ≠ "" && e.exampleText = "" then
                  (⟨trimChars t.1⟩ : String)
                else e.exampleText })
    m

/-- `extractPrimarySentimentDriver(sentimentData, company)`: tally the
driver catalog over the top-10 bullish and top-10 bearish posts, pick
the most frequent driver, and render its description (the extracted
example when captured, a canned phrase otherwise). -/
def extractPrimarySentimentDriver (sentimentData : SentimentData)
    (company : String) : String :=
  let allPosts := sentimentData.bullishPosts.take 10
    ++ sentimentData.bearishPosts.take 10
  let drivers := allPosts.foldl (fun m p => driverStep (postText p) m) []
  match (sortEntriesByCount DriverEntry.count drivers).head? with
  | none => company ++ " fundamentals"
  | some (driver, d) =>
      if driver = "earnings" then jsOrStr d.exampleText "recent earnings results"
      else if driver = "revenue" then jsOrStr d.exampleText "revenue growth trends"
      else if driver = "guidance" then jsOrStr d.exampleText "forward guidance changes"
      else if driver = "valuation" then jsOrStr d.exampleText "valuation concerns"
      else if driver = "competition" then "competitive positioning"
      else if driver = "product" then "product announcements"
      else if driver = "financials" then "balance sheet metrics"
      else "market dynamics"

/-- `bullishEngagement`: `data.bullishPosts.reduce((sum, p) => sum +
p.score + p.num_comments, 0)`. -/
def bullishEngagementOf (data : SentimentData) : Int :=
  data.bullishPosts.foldl (fun sum p => sum + p.score + p.num_comments) 0

/-- `bearishEngagement`, the same reduction over the bearish bucket. -/
def bearishEngagementOf (data : SentimentData) : Int :=
  data.bearishPosts.foldl (fun sum p => sum + p.score + p.num_comments) 0

/-- The denominator actually used by the source,
`(bearishEngagement || 1)`: JS `||` substitutes 1 only when the sum is
exactly 0 (falsy); a negative sum is truthy and is used as-is. -/
def engagementDenomOf (data : SentimentData) : Int :=
  if bearishEngagementOf data = 0 then 1 else bearishEngagementOf data

/-- `engagementRatio = bullishEngagement / (bearishEngagement || 1)`. -/
def engagementRatioOf (data : SentimentData) : ℚ :=
  (bullishEngagementOf data : ℚ) / (engagementDenomOf data : ℚ)

/-- `generateDetailedSentimentBullet(data, totalPosts, company)`. -/
def generateDetailedSentimentBullet (data : SentimentData) (totalPosts : Nat)
    (company : String) : String :=
  let bullishPercent := jsRound ((data.bullishPosts.length : ℚ) / totalPosts * 100)
  let bearishPercent := jsRound ((data.bearishPosts.length : ℚ) / totalPosts * 100)
  let primaryDriver := extractPrimarySentimentDriver data company
  let ratioStr := toFixed1 (engagementRatioOf data)
  let bp := toString bullishPercent
  let brp := toString bearishPercent
  let tp := toString totalPosts
  if bullishPercent > bearishPercent + 10 then
    s!"• {bp}% bullish vs {brp}% bearish across {tp} posts, primarily driven by {primaryDriver}, with bull posts getting {ratioStr}x more engagement"
  else if bearishPercent > bullishPercent + 10 then
    s!"• {brp}% bearish vs {bp}% bullish sentiment, mainly due to {primaryDriver}, though bull/bear engagement ratio is {ratioStr}x"
  else
    let side := if engagementRatioOf data > 1 then "bulls" else "bears"
    s!"• Split sentiment ({bp}% bullish, {brp}% bearish) as investors debate {primaryDriver}, with {side} more engaged"

/-- A case-sensitive character class (for the two uninflected numeric
regexes `/\$?\d+\.?\d*[BMK%]?/`). -/
def oneOfCS (s : String) : RE := RE.cls fun c => s.data.any fun d => d = c

/-- The numeric-metric regex `/\$?\d+\.?\d*[BMK%]?/` (no `i` flag). -/
def numberRe : RE :=
  reSeq [opt (lit "$"), digits, opt (RE.cls fun c => c = '.'),
    RE.star digit, opt (oneOfCS "BMK%")]

/-- `\$\d+\.?\d*` with an optional unit class (case-insensitive). -/
def dollarAmount : RE :=
  reSeq [lit "$", digits, opt (RE.cls fun c => c = '.'), RE.star digit]

/-- The `detailPatterns` record of `extractTopicWithDetails`, in source
(insertion) order: topic name and its pattern list. -/
def detailPatterns : List (String × List RE) := [
  ("Earnings", [
    reSeq [lit "earnings", anyUpTo 20,
      RE.grp 1 (RE.alt dollarAmount (reSeq [digits, lit "%"]))],
    reSeq [lit "eps", anyUpTo 20, RE.grp 1 dollarAmount],
    reSeq [lit "beat", anyUpTo 20, lit "by", anyUpTo 20,
      RE.grp 1 (RE.alt (reSeq [digits, lit "%"]) dollarAmount)],
    reSeq [lit "miss", anyUpTo 20, lit "by", anyUpTo 20,
      RE.grp 1 (RE.alt (reSeq [digits, lit "%"]) dollarAmount)]]),
  ("Revenue", [
    reSeq [lit "revenue", anyUpTo 20,
      RE.grp 1 (RE.alt (reSeq [dollarAmount, opt (oneOf "BMK")])
        (reSeq [digits, lit "%"]))],
    reSeq [lit "sales", anyUpTo 20, RE.grp 1 (RE.alt (lit "growth") (lit "decline")),
      anyUpTo 20, RE.grp 2 (reSeq [digits, lit "%"])],
    reSeq [lit "yoy", anyUpTo 20, RE.grp 1 (RE.alt (lit "growth") (lit "decline")),
      anyUpTo 20, RE.grp 2 (reSeq [digits, lit "%"])]]),
  ("Valuation", [
    reSeq [lit "p/e", anyUpTo 20, RE.grp 1 digits],
    reSeq [lit "valued", anyUpTo 20, lit "at", anyUpTo 20,
      RE.grp 1 (reSeq [digits, lit "x"])],
    reSeq [lit "price", anyUpTo 20, lit "target", anyUpTo 20,
      RE.grp 1 (reSeq [lit "$", digits])],
    reSeq [lit "market", anyUpTo 20, lit "cap", anyUpTo 20,
      RE.grp 1 (reSeq [dollarAmount, oneOf "BMT"])]]),
  ("Product", [
    reSeq [RE.grp 1 (reSeq [digits, opt (oneOf "MK")]), anyUpTo 20, lit "users"],
    reSeq [lit "launched", anyUpTo 20, RE.grp 1 (rePlus wordOrSpace)],
    reSeq [lit "new", anyUpTo 20, lit "product", anyUpTo 20,
      RE.grp 1 (rePlus wordOrSpace)]]),
  ("Competition", [
    reSeq [lit "market", anyUpTo 20, lit "share", anyUpTo 20,
      RE.grp 1 (reSeq [digits, lit "%"])],
    reSeq [lit "vs", anyUpTo 20, lit "competitor", anyUpTo 20,
      RE.grp 1 (rePlus wordOrSpace)],
    reSeq [lit "losing", anyUpTo 20, lit "to", anyUpTo 20,
      RE.grp 1 (rePlus wordOrSpace)]])]

/-- Map value of the `topicDetails` map. -/
structure TopicEntry where
  count : Nat
  details : List String
  sentiment : Int
deriving DecidableEq

/-- The result record of `extractTopicWithDetails`. -/
structure TopicData where
  topic : String
  specificDetail : String
  sentiment : String
  metric : Option String
deriving DecidableEq

/-- One (post, topic, pattern) step of `extractTopicWithDetails`. -/
def topicStep (text : List Char) (postSentiment : Int) (topic : String)
    (m : List (String × TopicEntry)) (pat : RE) : List (String × TopicEntry) :=
  match jsMatch pat text with
  | none => m
  | some t =>
      let m1 := amEnsure m topic ⟨0, [], 0⟩
      amUpd m1 topic fun e =>
        let detail : String := ⟨trimChars t.1⟩
        { count := e.count + 1
          sentiment := e.sentiment + postSentiment
          details :=
            if detail ≠ "" && e.details.length < 5 then e.details ++ [detail]
            else e.details }

/-- `extractTopicWithDetails(sentimentData, company)`. -/
def extractTopicWithDetails (sentimentData : SentimentData) (company : String) :
    TopicData :=
  let _ := company
  let allPosts := sentimentData.bullishPosts ++ sentimentData.bearishPosts
    ++ sentimentData.neutralPosts
  let topicDetails := allPosts.foldl
    (fun m p =>
      let postSentiment : Int :=
        if sentimentData.bullishPosts.contains p then 1
        else if sentimentData.bearishPosts.contains p then -1 else 0
      detailPatterns.foldl
        (fun m tp => tp.2.foldl (topicStep (postText p) postSentiment tp.1) m)
        m)
    []
  match (sortEntriesByCount TopicEntry.count topicDetails).head? with
  | none => { topic := "", specificDetail := "", sentiment := "mixed", metric := none }
  | some (topic, d) =>
      let sentiment :=
        if d.sentiment > 0 then "bullish"
        else if d.sentiment < 0 then "bearish" else "mixed"
      let lowerTopic : String := ⟨lowerStr topic.data⟩
      let specificDetail := jsOrStr (d.details.headD "") (lowerTopic ++ " metrics")
      let metric :=
        match jsMatch numberRe specificDetail.data with
        | none => none
        | some t => some (⟨t.1⟩ : String)
      { topic := topic, specificDetail := specificDetail,
        sentiment := sentiment, metric := metric }

/-- `generateSpecificTopicBullet(data, company)`. -/
def generateSpecificTopicBullet (data : SentimentData) (company : String) :
    String :=
  let topicData := extractTopicWithDetails data company
  if topicData.topic = "" then
    s!"• Primary discussion theme unclear across varied {company} posts"
  else
    let topic := topicData.topic
    let detail := topicData.specificDetail
    let sent := topicData.sentiment
    let metricPart :=
      match topicData.metric with
      | some m => "(" ++ m ++ ")"
      | none => ""
    s!"• {topic} discussions center on {detail}, with {sent} sentiment {metricPart}"

/-- Map value of the `reasons` map of `extractSpecificReason`. -/
structure ReasonEntry where
  count : Nat
  details : List String
deriving DecidableEq

/-- The bullish `reasonPatterns` catalog. -/
def bullishReasonPatterns : List (RE × String) := [
  (reSeq [lit "earnings", anyUpTo 50, lit "beat", anyUpTo 20,
    RE.grp 1 (RE.alt (reSeq [opt (lit "$"), digits, opt (RE.cls fun c => c = '.'),
      RE.star digit]) (reSeq [digits, lit "%"]))], "earnings beat"),
  (reSeq [lit "revenue", anyUpTo 50, lit "growth", anyUpTo 20,
    RE.grp 1 (reSeq [digits, lit "%"])], "revenue growth"),
  (reSeq [lit "guidance", anyUpTo 50, lit "raised", anyUpTo 20,
    RE.grp 1 (reSeq [opt (lit "$"), digits, opt (RE.cls fun c => c = '.'),
      RE.star digit, opt (oneOf "BM")])], "raised guidance"),
  (reSeq [lit "margin", anyUpTo 50, lit "expansion", anyUpTo 20,
    RE.grp 1 (reSeq [digits, opt (RE.cls fun c => c = '.'), RE.star digit,
      opt (lit "%")])], "margin expansion"),
  (reSeq [lit "cash", anyUpTo 50, lit "position", anyUpTo 20,
    RE.grp 1 (reSeq [opt (lit "$"), digits, opt (RE.cls fun c => c = '.'),
      RE.star digit, oneOf "BM"])], "strong cash position"),
  (reSeq [lit "market", anyUpTo 50, lit "share", anyUpTo 50, lit "gain"],
    "market share gains"),
  (reSeq [lit "new", anyUpTo 50, lit "product", anyUpTo 50, lit "launch"],
    "product innovation")]

/-- The bearish `reasonPatterns` catalog. -/
def bearishReasonPatterns : List (RE × String) := [
  (reSeq [lit "earnings", anyUpTo 50, lit "miss", anyUpTo 20,
    RE.grp 1 (RE.alt (reSeq [opt (lit "$"), digits, opt (RE.cls fun c => c = '.'),
      RE.star digit]) (reSeq [digits, lit "%"]))], "earnings miss"),
  (reSeq [lit "revenue", anyUpTo 50, lit "decline", anyUpTo 20,
    RE.grp 1 (reSeq [digits, lit "%"])], "revenue decline"),
  (reSeq [lit "guidance", anyUpTo 50, RE.grp 1 (RE.alt (lit "cut") (lit "lowered")),
    anyUpTo 20, RE.grp 2 (reSeq [opt (lit "$"), digits,
      opt (RE.cls fun c => c = '.'), RE.star digit, opt (oneOf "BM")])],
    "lowered guidance"),
  (reSeq [lit "margin", anyUpTo 50, lit "compression", anyUpTo 20,
    RE.grp 1 (reSeq [digits, opt (RE.cls fun c => c = '.'), RE.star digit,
      opt (lit "%")])], "margin pressure"),
  (reSeq [lit "debt", anyUpTo 50, lit "concern", anyUpTo 20,
    RE.grp 1 (reSeq [opt (lit "$"), digits, opt (RE.cls fun c => c = '.'),
      RE.star digit, oneOf "BM"])], "debt levels"),
  (reSeq [lit "competition", anyUpTo 50, lit "pressure"], "competitive threats"),
  (reSeq [lit "valuation", anyUpTo 50,
    RE.grp 1 (RE.alt (lit "high") (lit "expensive"))], "valuation concerns")]

/-- `extractSpecificReason(posts, sentiment)`: tally reason patterns
over the given posts, keeping full-match texts that contain a number;
return the most frequent reason and its first detail. -/
def extractSpecificReason (posts : List RedditPost) (sentiment : String) :
    String × Option String :=
  let reasonPatterns :=
    if sentiment = "bullish" then bullishReasonPatterns else bearishReasonPatterns
  let reasons := posts.foldl
    (fun m p =>
      reasonPatterns.foldl
        (fun m rp =>
          match jsMatch rp.1 (postText p) with
          | none => m
          | some t =>
              let m1 := amEnsure m rp.2 (⟨0, []⟩ : ReasonEntry)
              amUpd m1 rp.2 fun e =>
                let fullMatch : String := ⟨t.1⟩
                { count := e.count + 1
                  details :=
                    if (jsMatch numberRe fullMatch.data).isSome then
                      e.details ++ [fullMatch]
                    else e.details })
        m)
    []
  match (sortEntriesByCount ReasonEntry.count reasons).head? with
  | none => (if sentiment = "bullish" then "positive fundamentals" else "risk factors", none)
  | some (reason, d) => (reason, d.details.head?)

/-- `generateDetailedBullishBullet(data, company)` (the caller
guarantees `bullishPosts` is non-empty; `headI` models `[0]`). -/
def generateDetailedBullishBullet (data : SentimentData) (company : String) :
    String :=
  let topPost := data.bullishPosts.headI
  let specificReason := extractSpecificReason (data.bullishPosts.take 5) "bullish"
  let sc := toString topPost.score
  let nc := toString topPost.num_comments
  let eng := s!"{sc} upvotes, {nc} comments"
  let reason := specificReason.1
  match specificReason.2 with
  | some detail => s!"• Bulls highlight {reason}: {detail} ({eng})"
  | none => s!"• Bulls emphasize {reason} for {company} ({eng})"

/-- `generateDetailedBearishBullet(data, company)`. -/
def generateDetailedBearishBullet (data : SentimentData) (company : String) :
    String :=
  let topPost := data.bearishPosts.headI
  let specificReason := extractSpecificReason (data.bearishPosts.take 5) "bearish"
  let sc := toString topPost.score
  let nc := toString topPost.num_comments
  let eng := s!"{sc} upvotes, {nc} comments"
  let reason := specificReason.1
  match specificReason.2 with
  | some detail => s!"• Bears worry about {reason}: {detail} ({eng})"
  | none => s!"• Bears concerned about {reason} for {company} ({eng})"

/-- Accumulator of `extractOptionInsight`'s per-post scan. -/
structure OptionAcc where
  callMentions : Nat
  putMentions : Nat
  strikeDetails : List String
deriving DecidableEq

/-- One post's contribution to the option-activity scan. -/
def optionStep (acc : OptionAcc) (p : RedditPost) : OptionAcc :=
  let text := postText p
  let callMatch := jsMatch (reSeq [RE.grp 1 (reSeq [lit "$", digits]), wsStar,
    lit "call", opt (lit "s")]) text
  let putMatch := jsMatch (reSeq [RE.grp 1 (reSeq [lit "$", digits]), wsStar,
    lit "put", opt (lit "s")]) text
  let flowMatch := jsMatch (reSeq [lit "option", wsStar, lit "flow", anyUpTo 50,
    RE.grp 1 (reSeq [opt (lit "$"), digits, oneOf "MK"])]) text
  let acc1 :=
    match callMatch with
    | some t =>
        { callMentions := acc.callMentions + 1
          putMentions := acc.putMentions
          strikeDetails := acc.strikeDetails ++ [capStr t.2 1 ++ " calls"] }
    | none => acc
  let acc2 :=
    match putMatch with
    | some t =>
        { callMentions := acc1.callMentions
          putMentions := acc1.putMentions + 1
          strikeDetails := acc1.strikeDetails ++ [capStr t.2 1 ++ " puts"] }
    | none => acc1
  match flowMatch with
  | some t =>
      { acc2 with
        strikeDetails := acc2.strikeDetails ++ [capStr t.2 1 ++ " in option flow"] }
  | none => acc2

/-- `extractOptionInsight(data)`: an empty string models the falsy `''`
return (insight unavailable). -/
def extractOptionInsight (data : SentimentData) : String :=
  let allPosts := data.bullishPosts ++ data.bearishPosts ++ data.neutralPosts
  let acc := allPosts.foldl optionStep ⟨0, 0, []⟩
  if acc.callMentions + acc.putMentions ≥ 5 then
    let ratio : ℚ := (acc.callMentions : ℚ) /
      ((if acc.putMentions = 0 then 1 else acc.putMentions : Nat) : ℚ)
    let detail := jsOrStr (acc.strikeDetails.headD "") "various strikes"
    let c := toString acc.callMentions
    let p := toString acc.putMentions
    if ratio > 2 then
      s!"• Heavy call activity ({c}:{p} ratio) with focus on {detail} suggesting bullish positioning"
    else if ratio < 1 / 2 then
      s!"• Put buying dominating ({p}:{c} ratio) particularly {detail} indicating hedging"
    else
      s!"• Mixed option activity ({c} calls, {p} puts) with {detail} showing uncertainty"
  else ""

/-- Map value of the `comparisons` map. -/
structure CompEntry where
  count : Nat
  context : String
deriving DecidableEq

/-- The competitor-mention pattern
`/vs\.?\s*([\w]+)|compared\s*to\s*([\w]+)|versus\s*([\w]+)/i`. -/
def compPattern : RE :=
  RE.alt (reSeq [lit "vs", opt (RE.cls fun c => c = '.'), wsStar,
    RE.grp 1 (rePlus wordCls)])
  (RE.alt (reSeq [lit "compared", wsStar, lit "to", wsStar,
    RE.grp 2 (rePlus wordCls)])
  (reSeq [lit "versus", wsStar, RE.grp 3 (rePlus wordCls)]))

/-- `match[1] || match[2] || match[3]` (absent and empty are falsy). -/
def firstCap (caps : Caps) : String :=
  jsOrStr (capStr caps 1) (jsOrStr (capStr caps 2) (capStr caps 3))

/-- One post's contribution to the `comparisons` map. -/
def comparisonStep (m : List (String × CompEntry)) (p : RedditPost) :
    List (String × CompEntry) :=
  let text := postText p
  match jsMatch compPattern text with
  | none => m
  | some t =>
      let competitor := firstCap t.2
      if competitor ≠ "" && competitor.length > 2 then
        let m1 := amEnsure m competitor (⟨0, ""⟩ : CompEntry)
        amUpd m1 competitor fun e =>
          let contextMatch := jsMatch (reSeq [lit competitor, anyUpTo 100]) text
          { count := e.count + 1
            context :=
              match contextMatch with
              | some u => if e.context = "" then (⟨u.1⟩ : String) else e.context
              | none => e.context }
      else m

/-- `extractComparisonInsight(data, company)`. -/
def extractComparisonInsight (data : SentimentData) (company : String) : String :=
  let _ := company
  let allPosts := data.bullishPosts ++ data.bearishPosts ++ data.neutralPosts
  let comparisons := allPosts.foldl comparisonStep []
  match (sortEntriesByCount CompEntry.count comparisons).head? with
  | some (competitor, d) =>
      let cnt := toString d.count
      s!"• Frequent comparisons to {competitor} ({cnt} mentions) with investors debating relative positioning"
  | none => ""

/-- Map value of the `technicals` map. -/
structure TechEntry where
  count : Nat
  level : String
deriving DecidableEq

/-- The technical-analysis pattern catalog, in source order. -/
def technicalPatterns : List (RE × String) := [
  (reSeq [lit "support", wsStar, opt (reSeq [lit "at", wsStar]), opt (lit "$"),
    RE.grp 1 digits], "support"),
  (reSeq [lit "resistance", wsStar, opt (reSeq [lit "at", wsStar]), opt (lit "$"),
    RE.grp 1 digits], "resistance"),
  (reSeq [RE.grp 1 digits, wsStar, lit "day", wsStar, lit "moving", wsStar,
    lit "average"], "MA"),
  (reSeq [lit "target", wsStar, opt (reSeq [lit "price", wsStar]), opt (lit "$"),
    RE.grp 1 digits], "target")]

/-- One post's contribution to the `technicals` map (the `level` is the
first match's capture; later matches only bump the count). -/
def technicalStep (m : List (String × TechEntry)) (p : RedditPost) :
    List (String × TechEntry) :=
  technicalPatterns.foldl
    (fun m tp =>
      match jsMatch tp.1 (postText p) with
      | none => m
      | some t =>
          let m1 := amEnsure m tp.2 (⟨0, capStr t.2 1⟩ : TechEntry)
          amUpd m1 tp.2 fun e => { e with count := e.count + 1 })
    m

/-- `extractTechnicalInsight(data)`. -/
def extractTechnicalInsight (data : SentimentData) : String :=
  let allPosts := data.bullishPosts ++ data.bearishPosts ++ data.neutralPosts
  let technicals := allPosts.foldl technicalStep []
  match (sortEntriesByCount TechEntry.count technicals).head? with
  | none => ""
  | some (ty, d) =>
      let lvl := d.level
      let cnt := toString d.count
      if ty = "support" then
        s!"• Technical traders watching {lvl} support level ({cnt} mentions)"
      else if ty = "resistance" then
        s!"• Key resistance at {lvl} being discussed by {cnt} traders"
      else if ty = "target" then
        s!"• Price targets clustering around {lvl} ({cnt} mentions)"
      else
        s!"• Technical analysis focusing on {lvl}-day moving average"

/-- Map value of the `institutions` map. -/
structure InstEntry where
  count : Nat
  action : String
deriving DecidableEq

/-- The institutional-activity pattern catalog, in source order. -/
def institutionalPatterns : List (RE × String) := [
  (reSeq [RE.grp 1 (rePlus wordOrSpace), wsStar,
    RE.alt (lit "bought") (RE.alt (lit "purchased") (lit "acquired")), wsStar,
    opt (RE.grp 2 (reSeq [digits, opt (oneOf "MK")])), wsStar, lit "shares"],
    "buying"),
  (reSeq [RE.grp 1 (rePlus wordOrSpace), wsStar,
    RE.alt (lit "sold") (RE.alt (lit "dumped") (lit "reduced")), wsStar,
    opt (RE.grp 2 (reSeq [digits, opt (oneOf "MK")])), wsStar, lit "shares"],
    "selling"),
  (reSeq [lit "insider", wsStar, RE.alt (lit "buying") (lit "selling")],
    "insider activity"),
  (reSeq [lit "institutional", wsStar, RE.alt (lit "buying") (lit "selling")],
    "institutional flow")]

/-- One post's contribution to the `institutions` map
(`match[1] || action` names the key). -/
def institutionalStep (m : List (String × InstEntry)) (p : RedditPost) :
    List (String × InstEntry) :=
  institutionalPatterns.foldl
    (fun m ip =>
      match jsMatch ip.1 (postText p) with
      | none => m
      | some t =>
          let institution := jsOrStr (capStr t.2 1) ip.2
          let m1 := amEnsure m institution (⟨0, ip.2⟩ : InstEntry)
          amUpd m1 institution fun e => { e with count := e.count + 1 })
    m

/-- `extractInstitutionalInsight(data)`. -/
def extractInstitutionalInsight (data : SentimentData) : String :=
  let allPosts := data.bullishPosts ++ data.bearishPosts ++ data.neutralPosts
  let institutions := allPosts.foldl institutionalStep []
  match (sortEntriesByCount InstEntry.count institutions).head? with
  | none => ""
  | some (institution, d) =>
      let act := d.action
      let cnt := toString d.count
      s!"• {institution} activity ({act}) generating {cnt} discussions"

/-- `extractMomentumInsight(data, company)`.  `now` is the value of
`Date.now() / 1000` (seconds).  The two momentum branches require at
least five posts in the last 24 hours; otherwise control falls through
to the posts-per-day fallback, which always produces a sentence. -/
def extractMomentumInsight (now : ℚ) (data : SentimentData) (company : String) :
    String :=
  let dayAgo := now - 24 * 60 * 60
  let weekAgo := now - 7 * 24 * 60 * 60
  let recentPosts := (data.bullishPosts ++ data.bearishPosts).filter
    fun p => decide ((p.created_utc : ℚ) > dayAgo)
  let weekPosts := (data.bullishPosts ++ data.bearishPosts).filter
    fun p => decide ((p.created_utc : ℚ) > weekAgo)
  let recentEngagement : Int := recentPosts.foldl
    (fun sum p => sum + p.score + p.num_comments) 0
  let avgEngagement := jsRound ((recentEngagement : ℚ) / recentPosts.length)
  let recentBullishPercent : ℚ :=
    ((recentPosts.filter fun p => data.bullishPosts.contains p).length : ℚ)
      / recentPosts.length
  if recentPosts.length ≥ 5 && decide (recentBullishPercent > 7 / 10) then
    let n := toString recentPosts.length
    let avg := toString avgEngagement
    let pct := toString (jsRound (recentBullishPercent * 100))
    s!"• Momentum building with {n} posts in 24hrs (avg {avg} engagement), {pct}% bullish"
  else if recentPosts.length ≥ 5 && decide (recentBullishPercent < 3 / 10) then
    let n := toString recentPosts.length
    let pct := toString (jsRound ((1 - recentBullishPercent) * 100))
    s!"• Negative momentum with {n} posts today, {pct}% bearish"
  else
    let volumeRatio : ℚ := (weekPosts.length : ℚ) / 7
    let vr := toFixed1 volumeRatio
    let level :=
      if volumeRatio > 5 then "high"
      else if volumeRatio > 2 then "moderate" else "low"
    s!"• {company} averaging {vr} posts/day this week, {level} retail interest"

/-- `generateUniqueInsight(data, company)`: the strict fallback chain
option activity → competitor comparison → technical levels →
institutional activity → momentum (an empty string is the falsy "no
insight" signal of each tier). -/
def generateUniqueInsight (now : ℚ) (data : SentimentData) (company : String) :
    String :=
  let optionInsight := extractOptionInsight data
  if optionInsight ≠ "" then optionInsight
  else
    let comparisonInsight := extractComparisonInsight data company
    if comparisonInsight ≠ "" then comparisonInsight
    else
      let technicalInsight := extractTechnicalInsight data
      if technicalInsight ≠ "" then technicalInsight
      else
        let institutionalInsight := extractInstitutionalInsight data
        if institutionalInsight ≠ "" then institutionalInsight
        else extractMomentumInsight now data company

/-- `generateNarrative(data, company)`: one informational bullet for an
empty corpus; otherwise the sentiment bullet, then — each conditional
on its data being present — topic, bulls and bears bullets, then the
unconditional unique-insight bullet. -/
def generateNarrative (now : ℚ) (data : SentimentData) (company : String) :
    List String :=
  let totalPosts := data.bullishPosts.length + data.bearishPosts.length
    + data.neutralPosts.length
  if totalPosts = 0 then
    [s!"• Limited Reddit discussion about {company} in the past 90 days"]
  else
    let bullets := [generateDetailedSentimentBullet data totalPosts company]
    let bullets :=
      if data.keyThemes.length > 0 then
        bullets ++ [generateSpecificTopicBullet data company]
      else bullets
    let bullets :=
      if data.bullishPosts.length > 0 then
        bullets ++ [generateDetailedBullishBullet data company]
      else bullets
    let bullets :=
      if data.bearishPosts.length > 0 then
        bullets ++ [generateDetailedBearishBullet data company]
      else bullets
    bullets ++ [generateUniqueInsight now data company]

/-! The non-streaming narrative route (`app/api/narrative/route.ts`,
`GET`), as a pure function of the three effectful outcomes: the Reddit
gathering result (`none` models a thrown gathering error), the rich
Perplexity call and the narrow reddit.com-scoped fallback call. -/

/-- Outcome of one external summarizer request: the fetch threw (network
failure), the response had a non-success status (`!response.ok`), or it
succeeded with the given message content. -/
inductive CallOutcome : Type where
  | throws : CallOutcome
  | notOk : CallOutcome
  | okContent : String → CallOutcome
deriving DecidableEq

/-- What the route returns: a bullet list, or the 500 error response of
the outer catch. -/
inductive RouteResult : Type where
  | success : List String → RouteResult
  | serverError : RouteResult
deriving DecidableEq

/-- JS `content.split('\n')`. -/
def splitLines : List Char → List (List Char)
  | [] => [[]]
  | c :: cs =>
      let r := splitLines cs
      if c = '\n' then [] :: r
      else (c :: r.headD []) :: r.tail

/-- Bullet extraction:
`content.split('\n').filter(l => l.trim().startsWith('•')).slice(0, 5)`. -/
def extractBullets (content : String) : List String :=
  (((splitLines content.data).filter fun l => (trimChars l).head? = some '•').take 5).map
    fun l => (⟨l⟩ : String)

/-- The hardcoded final-fallback bullet set. -/
def staticFallbackBullets (company : String) : List String := [
  s!"• Limited Reddit discussion found for {company} in recent 90 days",
  "• Low discussion volume may indicate limited retail investor interest",
  "• Consider checking alternative ticker symbols or variations",
  "• Some companies may be discussed using nicknames or abbreviations",
  "• International stocks may have limited coverage in English subreddits"]

/-- The `if (narrativeBullets.length === 0)` final-fallback step at the
bottom of the route body. -/
def routeFinish (company : String) (bullets : List String) : RouteResult :=
  RouteResult.success
    (if bullets.isEmpty then staticFallbackBullets company else bullets)

/-- The `catch` block of the route: the narrow reddit.com-scoped
fallback request.  A thrown narrow request escapes to the outer catch
(500 response); a non-success status or empty extraction leaves the
bullet list empty, so the static fallback is returned. -/
def routeCatch (company : String) (narrow : CallOutcome) : RouteResult :=
  match narrow with
  | CallOutcome.throws => RouteResult.serverError
  | CallOutcome.notOk => routeFinish company []
  | CallOutcome.okContent c => routeFinish company (extractBullets c)

/-- The route run record: final result plus which of the two external
summarizer calls were actually issued. -/
structure RouteRun where
  result : RouteResult
  richAttempted : Bool
  narrowAttempted : Bool
deriving DecidableEq

/-- `GET` of the narrative route.  The `try` block throws (entering the
narrow-call `catch`) only when Reddit gathering throws, when zero posts
were collected, or when the rich fetch itself throws; a non-success
rich status or a successful rich response with zero extracted bullets
falls through, skipping the catch, straight to the final-fallback
check. -/
def narrativeRoute (company : String) (reddit : Option SentimentData)
    (rich narrow : CallOutcome) : RouteRun :=
  match reddit with
  | none => ⟨routeCatch company narrow, false, true⟩
  | some redditData =>
      let allPosts := redditData.bullishPosts ++ redditData.bearishPosts
        ++ redditData.neutralPosts
      if allPosts.length = 0 then ⟨routeCatch company narrow, false, true⟩
      else
        match rich with
        | CallOutcome.throws => ⟨routeCatch company narrow, true, true⟩
        | CallOutcome.notOk => ⟨routeFinish company [], true, false⟩
        | CallOutcome.okContent c =>
            ⟨routeFinish company (extractBullets c), true, false⟩

/-- The `sources` computed on the rich success path:
`allPosts.sort(byEngagementDesc).slice(0, 10).map(p => p.permalink)`. -/
def routeSources (redditData : SentimentData) : List String :=
  ((sortByEngagement (redditData.bullishPosts ++ redditData.bearishPosts
    ++ redditData.neutralPosts)).take 10).map fun p => p.permalink

/-! Shared lemmas about the deduplicator. -/

/-- The output of `dedupeGo` keeps a subsequence of its input (relative
order preserved). -/
theorem dedupeGo_sublist : ∀ (l : List RedditPost) (seen : List String),
    (dedupeGo seen l).Sublist l
  | [], _ => by simp [dedupeGo]
  | p :: ps, seen => by
      unfold dedupeGo
      split
      · exact (dedupeGo_sublist ps seen).cons p
      · exact (dedupeGo_sublist ps _).cons₂ p

/-- Membership characterisation of `dedupeGo`: an element survives iff
its permalink is new relative to `seen` and it is the first element of
the input carrying its permalink. -/
theorem mem_dedupeGo : ∀ (l : List RedditPost) (seen : List String) (q : RedditPost),
    q ∈ dedupeGo seen l ↔
      q.permalink ∉ seen
        ∧ l.find? (fun p => decide (p.permalink = q.permalink)) = some q
  | [], seen, q => by simp [dedupeGo, List.find?]
  | p :: ps, seen, q => by
      by_cases hpq : p.permalink = q.permalink
      · by_cases hs : p.permalink ∈ seen
        · rw [dedupeGo, if_pos hs, mem_dedupeGo ps seen q,
            List.find?_cons_of_pos _ (by simp [hpq])]
          have hqs : q.permalink ∈ seen := hpq ▸ hs
          simp [hqs]
        · rw [dedupeGo, if_neg hs, List.mem_cons,
            mem_dedupeGo ps (p.permalink :: seen) q,
            List.find?_cons_of_pos _ (by simp [hpq])]
          constructor
          · rintro (rfl | ⟨hq, _⟩)
            · exact ⟨hpq ▸ hs, rfl⟩
            · rw [← hpq] at hq
              exact absurd (List.mem_cons_self _ _) hq
          · rintro ⟨_, hq⟩
            exact Or.inl (Option.some_inj.mp hq).symm
      · have hfind : (p :: ps).find? (fun r => decide (r.permalink = q.permalink))
            = ps.find? (fun r => decide (r.permalink = q.permalink)) :=
          List.find?_cons_of_neg _ (by simp [hpq])
        by_cases hs : p.permalink ∈ seen
        · rw [dedupeGo, if_pos hs, mem_dedupeGo ps seen q, hfind]
        · rw [dedupeGo, if_neg hs, List.mem_cons,
            mem_dedupeGo ps (p.permalink :: seen) q, hfind]
          constructor
          · rintro (rfl | ⟨hq, hf⟩)
            · exact absurd rfl hpq
            · exact ⟨fun hmem => hq (List.mem_cons_of_mem _ hmem), hf⟩
          · rintro ⟨hq, hf⟩
            refine Or.inr ⟨?_, hf⟩
            intro hmem
            rcases List.mem_cons.1 hmem with h | h
            · exact hpq h.symm
            · exact hq h

/-- `dedupeGo` is idempotent for a fixed seen set. -/
theorem dedupeGo_idem : ∀ (l : List RedditPost) (seen : List String),
    dedupeGo seen (dedupeGo seen l) = dedupeGo seen l
  | [], _ => by simp [dedupeGo]
  | p :: ps, seen => by
      by_cases hs : p.permalink ∈ seen
      · rw [dedupeGo, if_pos hs, dedupeGo_idem ps seen]
      · rw [dedupeGo, if_neg hs, dedupeGo, if_neg hs, dedupeGo_idem ps (p.permalink :: seen)]

/-- C5: `deduplicatePosts` is idempotent, never lengthens its input,
keeps exactly the first occurrence of each permalink (an element is in
the output iff it is what `find?` locates for its own permalink),
preserves relative order (the output is a subsequence of the input),
and in the gathering pipeline it is applied to the raw accumulated
posts before the engagement sort and the top-150 truncation. -/
theorem deduplicatePosts_spec : ∀ X : List RedditPost,
    deduplicatePosts (deduplicatePosts X) = deduplicatePosts X
  ∧ (deduplicatePosts X).length ≤ X.length
  ∧ (deduplicatePosts X).Sublist X
  ∧ (∀ q : RedditPost, q ∈ deduplicatePosts X ↔
      X.find? (fun p => decide (p.permalink = q.permalink)) = some q)
  ∧ (∀ (company : String) (now : ℚ) (oracle : SearchOracle),
      topPostsOf company now oracle
        = (sortByEngagement (deduplicatePosts (allPostsOf company now oracle))).take 150) := by
  intro X
  refine ⟨dedupeGo_idem X [], (dedupeGo_sublist X []).length_le, dedupeGo_sublist X [],
    fun q => ?_, fun _ _ _ => rfl⟩
  rw [deduplicatePosts, mem_dedupeGo X [] q]
  simp

/-- C4: a raw candidate survives the inline filter iff all four
predicates hold — company mention present, no generic-thread phrase in
the title, engagement floor met (`score ≥ 5` or `num_comments ≥ 3`),
and creation time within the last 90 days — and the post-filter output
is exactly the filtered candidates, so failing any one predicate drops
the candidate from it silently. -/
theorem filter_conjunction_spec :
    ∀ (company : String) (now : ℚ) (children : List RawChild) (c : RawChild),
    (passesFilter company now c = true ↔
      hasCompanyMention company c = true ∧ isGeneric c = false
        ∧ hasEngagement c = true ∧ isRecent now c = true)
  ∧ (c ∈ children.filter (passesFilter company now) ↔
      c ∈ children ∧ passesFilter company now c = true)
  ∧ processChildren company now children
      = (children.filter (passesFilter company now)).map toPost := by
  intro company now children c
  refine ⟨?_, List.mem_filter, rfl⟩
  unfold passesFilter
  constructor
  · intro h
    simp only [Bool.and_eq_true, Bool.not_eq_true'] at h
    exact ⟨h.1.1.1, h.1.1.2, h.1.2, h.2⟩
  · rintro ⟨h1, h2, h3, h4⟩
    simp [h1, h2, h3, h4]

/-! Shared lemmas about `analyzeSentiment`. -/

/-- The bullish bucket is the engagement-sorted filter of the
`score > 1` documents. -/
theorem analyzeSentiment_bullishPosts (posts : List RedditPost) (company : String) :
    (analyzeSentiment posts company).bullishPosts
      = sortByEngagement (posts.filter fun p => decide (1 < postScore p company)) := rfl

/-- The bearish bucket is the engagement-sorted filter of the else-if
branch (`!(score > 1) && score < -1`). -/
theorem analyzeSentiment_bearishPosts (posts : List RedditPost) (company : String) :
    (analyzeSentiment posts company).bearishPosts
      = sortByEngagement (posts.filter fun p =>
          !decide (1 < postScore p company) && decide (postScore p company < -1)) := rfl

/-- The neutral bucket is the engagement-sorted filter of the else
branch. -/
theorem analyzeSentiment_neutralPosts (posts : List RedditPost) (company : String) :
    (analyzeSentiment posts company).neutralPosts
      = sortByEngagement (posts.filter fun p =>
          !decide (1 < postScore p company) && !decide (postScore p company < -1)) := rfl

/-- The sources are the first ten permalinks in input order. -/
theorem analyzeSentiment_sources (posts : List RedditPost) (company : String) :
    (analyzeSentiment posts company).sources
      = (posts.map fun p => p.permalink).take 10 := rfl

/-- Membership in the bullish bucket is input membership plus
`score > 1`. -/
theorem mem_bullish_iff (posts : List RedditPost) (company : String) (p : RedditPost) :
    p ∈ (analyzeSentiment posts company).bullishPosts
      ↔ p ∈ posts ∧ 1 < postScore p company := by
  rw [analyzeSentiment_bullishPosts, sortByEngagement,
    (List.perm_insertionSort engGe _).mem_iff, List.mem_filter]
  simp

/-- Membership in the bearish bucket is input membership plus
`score < -1`. -/
theorem mem_bearish_iff (posts : List RedditPost) (company : String) (p : RedditPost) :
    p ∈ (analyzeSentiment posts company).bearishPosts
      ↔ p ∈ posts ∧ postScore p company < -1 := by
  rw [analyzeSentiment_bearishPosts, sortByEngagement,
    (List.perm_insertionSort engGe _).mem_iff, List.mem_filter]
  simp only [Bool.and_eq_true, Bool.not_eq_true', decide_eq_true_eq, decide_eq_false_iff_not]
  constructor
  · rintro ⟨h1, _, h3⟩
    exact ⟨h1, h3⟩
  · rintro ⟨h1, h3⟩
    exact ⟨h1, by omega, h3⟩

/-- Membership in the neutral bucket is input membership plus a score
in `[-1, 1]`. -/
theorem mem_neutral_iff (posts : List RedditPost) (company : String) (p : RedditPost) :
    p ∈ (analyzeSentiment posts company).neutralPosts
      ↔ p ∈ posts ∧ -1 ≤ postScore p company ∧ postScore p company ≤ 1 := by
  rw [analyzeSentiment_neutralPosts, sortByEngagement,
    (List.perm_insertionSort engGe _).mem_iff, List.mem_filter]
  simp only [Bool.and_eq_true, Bool.not_eq_true', decide_eq_true_eq, decide_eq_false_iff_not]
  constructor
  · rintro ⟨h1, h2, h3⟩
    exact ⟨h1, by omega, by omega⟩
  · rintro ⟨h1, h2, h3⟩
    exact ⟨h1, by omega, by omega⟩

/-- Boundary documents for the threshold claim. -/
def upPost : RedditPost := ⟨"upside", "", "", "p1", 0, 0, "", 0⟩

/-- Boundary document scoring exactly -1. -/
def dnPost : RedditPost := ⟨"downside", "", "", "p2", 0, 0, "", 0⟩

/-- Boundary document scoring exactly +2. -/
def uvPost : RedditPost := ⟨"undervalued", "", "", "p3", 5, 0, "", 0⟩

/-- Boundary document scoring exactly -2. -/
def ovPost : RedditPost := ⟨"overvalued", "", "", "p4", -10, 3, "", 0⟩

/-- C3: a classified document's bucket is derived from its summed
pattern score by thresholding — `score > 1` bullish, `score < -1`
bearish, otherwise neutral — and on the boundaries a document scoring
exactly +1 or -1 lands in the neutral bucket, +2 in the bullish
bucket and -2 in the bearish bucket (witnessed by four concrete
single-pattern documents). -/
theorem bucket_threshold_spec :
    (∀ (posts : List RedditPost) (company : String) (p : RedditPost),
      (p ∈ (analyzeSentiment posts company).bullishPosts
        ↔ p ∈ posts ∧ 1 < postScore p company)
      ∧ (p ∈ (analyzeSentiment posts company).bearishPosts
        ↔ p ∈ posts ∧ postScore p company < -1)
      ∧ (p ∈ (analyzeSentiment posts company).neutralPosts
        ↔ p ∈ posts ∧ -1 ≤ postScore p company ∧ postScore p company ≤ 1))
  ∧ postScore upPost "AAPL" = 1
  ∧ upPost ∈ (analyzeSentiment [upPost] "AAPL").neutralPosts
  ∧ postScore dnPost "AAPL" = -1
  ∧ dnPost ∈ (analyzeSentiment [dnPost] "AAPL").neutralPosts
  ∧ postScore uvPost "AAPL" = 2
  ∧ uvPost ∈ (analyzeSentiment [uvPost] "AAPL").bullishPosts
  ∧ postScore ovPost "AAPL" = -2
  ∧ ovPost ∈ (analyzeSentiment [ovPost] "AAPL").bearishPosts := by
  refine ⟨fun posts company p =>
    ⟨mem_bullish_iff posts company p, mem_bearish_iff posts company p,
      mem_neutral_iff posts company p⟩, ?_, ?_, ?_, ?_, ?_, ?_, ?_, ?_⟩
  · decide
  · decide
  · decide
  · decide
  · decide
  · decide
  · decide
  · decide

/-- The three bucket filters split every input list exactly. -/
theorem three_filter_length (company : String) : ∀ l : List RedditPost,
    (l.filter fun p => decide (1 < postScore p company)).length
      + (l.filter fun p =>
          !decide (1 < postScore p company) && decide (postScore p company < -1)).length
      + (l.filter fun p =>
          !decide (1 < postScore p company) && !decide (postScore p company < -1)).length
      = l.length
  | [] => by simp
  | a :: l => by
      have ih := three_filter_length company l
      by_cases h1 : 1 < postScore a company
      · simp [List.filter_cons, h1]
        omega
      · by_cases h2 : postScore a company < -1
        · simp [List.filter_cons, h1, h2]
          omega
        · simp [List.filter_cons, h1, h2]
          omega

/-- C10: classification partitions the corpus — the three buckets are
pairwise disjoint, their lengths sum to the number of classified
documents, and that number is capped at 150 by the pre-classification
truncation of the deduplicated, engagement-sorted candidate list. -/
theorem classification_partition_spec
    (company : String) (now : ℚ) (oracle : SearchOracle) :
    (topPostsOf company now oracle).length ≤ 150
  ∧ (gatherCompanyData company now oracle).bullishPosts.length
      + (gatherCompanyData company now oracle).bearishPosts.length
      + (gatherCompanyData company now oracle).neutralPosts.length
      = (topPostsOf company now oracle).length
  ∧ ∀ p : RedditPost,
      ¬(p ∈ (gatherCompanyData company now oracle).bullishPosts
          ∧ p ∈ (gatherCompanyData company now oracle).bearishPosts)
      ∧ ¬(p ∈ (gatherCompanyData company now oracle).bullishPosts
          ∧ p ∈ (gatherCompanyData company now oracle).neutralPosts)
      ∧ ¬(p ∈ (gatherCompanyData company now oracle).bearishPosts
          ∧ p ∈ (gatherCompanyData company now oracle).neutralPosts) := by
  refine ⟨?_, ?_, ?_⟩
  · exact List.length_take_le 150 _
  · rw [gatherCompanyData, analyzeSentiment_bullishPosts, analyzeSentiment_bearishPosts,
      analyzeSentiment_neutralPosts]
    simp only [sortByEngagement, List.length_insertionSort]
    exact three_filter_length company _
  · intro p
    rw [gatherCompanyData]
    refine ⟨?_, ?_, ?_⟩
    · rintro ⟨hb, hr⟩
      have h1 := (mem_bullish_iff _ company p).mp hb
      have h2 := (mem_bearish_iff _ company p).mp hr
      omega
    · rintro ⟨hb, hn⟩
      have h1 := (mem_bullish_iff _ company p).mp hb
      have h2 := (mem_neutral_iff _ company p).mp hn
      omega
    · rintro ⟨hr, hn⟩
      have h1 := (mem_bearish_iff _ company p).mp hr
      have h2 := (mem_neutral_iff _ company p).mp hn
      omega

/-- C10 witness: the cap conclusion at a concrete company, clock and
oracle. -/
theorem classification_partition_spec_witness :
    (topPostsOf "TSLA" 0 (fun _ _ => none)).length ≤ 150 :=
  (classification_partition_spec "TSLA" 0 (fun _ _ => none)).1

/-- The engagement sort yields a list that is pairwise non-increasing
in engagement. -/
theorem sortByEngagement_pairwise (l : List RedditPost) :
    List.Pairwise (fun a b => engagement b ≤ engagement a) (sortByEngagement l) :=
  List.sorted_insertionSort engGe l

/-- C8: the citation permalink sequence of a gathering session has at
most 10 entries and lists exactly the permalinks of the first ten
classified documents, which are pairwise (hence adjacently)
non-increasing in engagement; the route's own source list has the same
shape. -/
theorem citation_ranking_spec (company : String) (now : ℚ) (oracle : SearchOracle) :
    (gatherCompanyData company now oracle).sources
      = ((topPostsOf company now oracle).take 10).map (fun p => p.permalink)
  ∧ (gatherCompanyData company now oracle).sources.length ≤ 10
  ∧ List.Chain' (fun a b => engagement b ≤ engagement a)
      ((topPostsOf company now oracle).take 10)
  ∧ ∀ d : SentimentData,
      routeSources d
        = ((sortByEngagement (d.bullishPosts ++ d.bearishPosts ++ d.neutralPosts)).take 10).map
            (fun p => p.permalink)
      ∧ (routeSources d).length ≤ 10
      ∧ List.Chain' (fun a b => engagement b ≤ engagement a)
          ((sortByEngagement (d.bullishPosts ++ d.bearishPosts ++ d.neutralPosts)).take 10) := by
  have hsort : ∀ l : List RedditPost,
      List.Chain' (fun a b => engagement b ≤ engagement a) ((sortByEngagement l).take 10) :=
    fun l => ((sortByEngagement_pairwise l).sublist (List.take_sublist 10 _)).chain'
  refine ⟨?_, ?_, ?_, fun d => ⟨rfl, ?_, hsort _⟩⟩
  · rw [gatherCompanyData, analyzeSentiment_sources, List.map_take]
  · rw [gatherCompanyData, analyzeSentiment_sources]
    exact List.length_take_le 10 _
  · rw [topPostsOf, List.take_take]
    norm_num
    exact ((sortByEngagement_pairwise _).sublist (List.take_sublist 10 _)).chain'
  · rw [routeSources]
    simp [List.length_take_le]

/-! Shared lemmas about the search-loop cap. -/

/-- Every request issued by the inner loop is issued while the
accumulated count is below 200, provided it starts below 200. -/
theorem runSubreddits_log_bound
    (company : String) (now : ℚ) (oracle : SearchOracle) (query : String) :
    ∀ (subs : List String) (acc : List RedditPost), acc.length < 200 →
    ∀ e ∈ (runSubreddits company now oracle query subs acc).2, e.countBefore < 200
  | [], acc, _, e, he => by simp [runSubreddits] at he
  | sub :: rest, acc, hacc, e, he => by
      rcases hor : oracle query sub with _ | children
      · simp only [runSubreddits, hor] at he
        rcases List.mem_cons.1 he with rfl | hmem
        · exact hacc
        · exact runSubreddits_log_bound company now oracle query rest acc hacc e hmem
      · simp only [runSubreddits, hor] at he
        by_cases hcap : 200 ≤ (acc ++ processChildren company now children).length
        · rw [if_pos hcap] at he
          rcases List.mem_cons.1 he with rfl | hmem
          · exact hacc
          · simp at hmem
        · rw [if_neg hcap] at he
          rcases List.mem_cons.1 he with rfl | hmem
          · exact hacc
          · exact runSubreddits_log_bound company now oracle query rest _
              (by omega) e hmem

/-- The inner loop's request log follows the subreddit list in order
(it is an initial segment of the per-strategy pair list). -/
theorem runSubreddits_log_pairs
    (company : String) (now : ℚ) (oracle : SearchOracle) (query : String) :
    ∀ (subs : List String) (acc : List RedditPost),
    ∃ t, ((runSubreddits company now oracle query subs acc).2.map
        fun e => (e.query, e.subreddit)) ++ t
      = subs.map fun sub => (query, sub)
  | [], acc => ⟨[], by simp [runSubreddits]⟩
  | sub :: rest, acc => by
      rcases hor : oracle query sub with _ | children
      · obtain ⟨t, ht⟩ := runSubreddits_log_pairs company now oracle query rest acc
        refine ⟨t, ?_⟩
        simp only [runSubreddits, hor, List.map_cons, List.cons_append, ht]
      · by_cases hcap : 200 ≤ (acc ++ processChildren company now children).length
        · refine ⟨rest.map fun sub => (query, sub), ?_⟩
          simp only [runSubreddits, hor, if_pos hcap]
          simp
        · obtain ⟨t, ht⟩ := runSubreddits_log_pairs company now oracle query rest
            (acc ++ processChildren company now children)
          refine ⟨t, ?_⟩
          simp only [runSubreddits, hor, if_neg hcap, List.map_cons, List.cons_append, ht]

/-- If the inner loop finishes below the cap, it visited every
subreddit of its strategy. -/
theorem runSubreddits_log_complete
    (company : String) (now : ℚ) (oracle : SearchOracle) (query : String) :
    ∀ (subs : List String) (acc : List RedditPost),
    (runSubreddits company now oracle query subs acc).1.length < 200 →
    (runSubreddits company now oracle query subs acc).2.map
        (fun e => (e.query, e.subreddit))
      = subs.map fun sub => (query, sub)
  | [], acc, _ => by simp [runSubreddits]
  | sub :: rest, acc, hlt => by
      rcases hor : oracle query sub with _ | children
      · simp only [runSubreddits, hor] at hlt ⊢
        simpa using runSubreddits_log_complete company now oracle query rest acc hlt
      · simp only [runSubreddits, hor] at hlt ⊢
        by_cases hcap : 200 ≤ (acc ++ processChildren company now children).length
        · rw [if_pos hcap] at hlt
          simp only [List.length_append] at hcap
          simp at hlt
          omega
        · rw [if_neg hcap] at hlt ⊢
          simpa using runSubreddits_log_complete company now oracle query rest _ hlt

/-- Every request issued across all strategies is issued while the
accumulated count is below 200. -/
theorem runStrategies_log_bound
    (company : String) (now : ℚ) (oracle : SearchOracle) :
    ∀ (strats : List SearchStrategy) (acc : List RedditPost), acc.length < 200 →
    ∀ e ∈ (runStrategies company now oracle strats acc).2, e.countBefore < 200
  | [], acc, _, e, he => by simp [runStrategies] at he
  | s :: rest, acc, hacc, e, he => by
      simp only [runStrategies] at he
      by_cases hcap :
          200 ≤ (runSubreddits company now oracle s.query s.subreddits acc).1.length
      · rw [if_pos hcap] at he
        exact runSubreddits_log_bound company now oracle s.query s.subreddits acc hacc e he
      · rw [if_neg hcap] at he
        rcases List.mem_append.1 he with hmem | hmem
        · exact runSubreddits_log_bound company now oracle s.query s.subreddits acc hacc e hmem
        · exact runStrategies_log_bound company now oracle rest _ (by omega) e hmem

/-- The full request log follows the fixed strategy expansion in order:
it is an initial segment of the (query, subreddit) pair list. -/
theorem runStrategies_log_pairs
    (company : String) (now : ℚ) (oracle : SearchOracle) :
    ∀ (strats : List SearchStrategy) (acc : List RedditPost),
    ∃ t, ((runStrategies company now oracle strats acc).2.map
        fun e => (e.query, e.subreddit)) ++ t
      = strats.flatMap fun s => s.subreddits.map fun sub => (s.query, sub)
  | [], acc => ⟨[], by simp [runStrategies]⟩
  | s :: rest, acc => by
      by_cases hcap :
          200 ≤ (runSubreddits company now oracle s.query s.subreddits acc).1.length
      · obtain ⟨t, ht⟩ := runSubreddits_log_pairs company now oracle s.query s.subreddits acc
        refine ⟨t ++ (rest.flatMap fun s => s.subreddits.map fun sub => (s.query, sub)), ?_⟩
        simp only [runStrategies, if_pos hcap, List.flatMap_cons, ← List.append_assoc, ht]
      · have hcomplete := runSubreddits_log_complete company now oracle s.query
          s.subreddits acc (by omega)
        obtain ⟨t, ht⟩ := runStrategies_log_pairs company now oracle rest
          (runSubreddits company now oracle s.query s.subreddits acc).1
        refine ⟨t, ?_⟩
        simp only [runStrategies, if_neg hcap, List.map_append, List.flatMap_cons, hcomplete]
        rw [List.append_assoc, ht]

/-- The strategy expansion: all (query, subreddit) pairs in execution
order. -/
def strategyPairs (company : String) : List (String × String) :=
  (searchStrategies company).flatMap fun s => s.subreddits.map fun sub => (s.query, sub)

/-- C6: every search request of a gathering run is issued while the
accumulated raw candidate count is still below 200 (the cap is
honoured after each successful accumulation), and the set of issued
requests is an initial segment of the fixed strategy expansion — once
the cap is reached, all later (query, subreddit) pairs are never
executed. -/
theorem search_cap_spec (company : String) (now : ℚ) (oracle : SearchOracle) :
    (∀ e ∈ searchLogOf company now oracle, e.countBefore < 200)
  ∧ ∃ t, ((searchLogOf company now oracle).map fun e => (e.query, e.subreddit)) ++ t
      = strategyPairs company := by
  constructor
  · exact runStrategies_log_bound company now oracle (searchStrategies company) []
      (by simp)
  · exact runStrategies_log_pairs company now oracle (searchStrategies company) []

/-- C6 witness: under an all-successful empty-result oracle the first
issued request carries a below-cap count, via the theorem at a concrete
input. -/
theorem search_cap_spec_witness :
    (⟨"TSLA", "stocks", 0⟩ : LogEntry) ∈ searchLogOf "TSLA" 0 (fun _ _ => some [])
  ∧ (⟨"TSLA", "stocks", 0⟩ : LogEntry).countBefore < 200 :=
  ⟨by decide, (search_cap_spec "TSLA" 0 (fun _ _ => some [])).1 _ (by decide)⟩

/-- C7: `getAccessToken` returns the cached credential with no network
call whenever a (truthy) cached credential exists and the current time
is before its stored expiry; otherwise it performs the exchange —
failing with the `AuthError` status on a non-success response, and on
success caching the token with expiry `now + expires_in * 1000`
(milliseconds; lifetime declared in seconds) and returning it. -/
theorem token_manager_spec (st : TokenState) (nowMs : Int) (exchange : ExchangeOutcome) :
    (∀ t : String, st.accessToken = some t → t ≠ "" → nowMs < st.tokenExpiry →
      getAccessToken st nowMs exchange = Except.ok (t, st, false))
  ∧ (¬(tokenTruthy st.accessToken = true ∧ nowMs < st.tokenExpiry) →
      (∀ status : Nat, exchange = Except.error status →
        getAccessToken st nowMs exchange = Except.error status)
      ∧ (∀ (tok : String) (expiresIn : Int), exchange = Except.ok (tok, expiresIn) →
        getAccessToken st nowMs exchange
          = Except.ok (tok, ⟨some tok, nowMs + expiresIn * 1000⟩, true))) := by
  constructor
  · intro t hsome hne hlt
    rw [getAccessToken.eq_def, if_pos]
    · rw [hsome]
      rfl
    · rw [hsome]
      simp [tokenTruthy, hne, hlt]
  · intro hguard
    have hg : (tokenTruthy st.accessToken && decide (nowMs < st.tokenExpiry)) = false := by
      rcases h : tokenTruthy st.accessToken && decide (nowMs < st.tokenExpiry) with _ | _
      · rfl
      · simp only [Bool.and_eq_true, decide_eq_true_eq] at h
        exact absurd h hguard
    constructor
    · intro status hex
      rw [getAccessToken.eq_def, if_neg (by simp [hg]), hex]
    · intro tok expiresIn hex
      rw [getAccessToken.eq_def, if_neg (by simp [hg]), hex]

/-- C7 witness: the cached branch at a concrete state and clock, via
the theorem. -/
theorem token_manager_spec_witness :
    getAccessToken ⟨some "tok", 100⟩ 50 (Except.error 401)
      = Except.ok ("tok", ⟨some "tok", 100⟩, false) :=
  (token_manager_spec ⟨some "tok", 100⟩ 50 (Except.error 401)).1 "tok" rfl
    (by decide) (by decide)

/-- A reachable corpus document matching no sentiment or theme pattern:
it classifies neutral and contributes no key theme. -/
def zzzPost : RedditPost := ⟨"zzz", "", "", "", 5, 0, "", 0⟩

/-- C1 counterexample: a reachable non-empty corpus (one neutral
document, no themes, no bullish and no bearish posts) for which
`generateNarrative` returns 2 bullets, not 5 — the topic, bulls and
bears generator routines are skipped rather than falling back to
generic sentences. -/
theorem narrative_count_counterexample :
    (analyzeSentiment [zzzPost] "zzz").bullishPosts.length
      + (analyzeSentiment [zzzPost] "zzz").bearishPosts.length
      + (analyzeSentiment [zzzPost] "zzz").neutralPosts.length = 1
  ∧ (generateNarrative 0 (analyzeSentiment [zzzPost] "zzz") "zzz").length = 2 := by
  constructor
  · decide
  · decide

/-- C1 amended: for an empty corpus `generateNarrative` returns exactly
1 bullet; for a non-empty corpus it returns 2 fixed bullets (sentiment
summary and unique insight) plus one bullet for each of the conditions
`keyThemes` non-empty, `bullishPosts` non-empty and `bearishPosts`
non-empty — between 2 and 5 in total, and exactly 5 only when all
three hold. -/
theorem narrative_count_amended (now : ℚ) (data : SentimentData) (company : String) :
    (data.bullishPosts.length + data.bearishPosts.length + data.neutralPosts.length = 0 →
      (generateNarrative now data company).length = 1)
  ∧ (data.bullishPosts.length + data.bearishPosts.length + data.neutralPosts.length ≠ 0 →
      (generateNarrative now data company).length
        = 2 + (if data.keyThemes.length > 0 then 1 else 0)
          + (if data.bullishPosts.length > 0 then 1 else 0)
          + (if data.bearishPosts.length > 0 then 1 else 0)) := by
  constructor
  · intro h
    simp [generateNarrative, h]
  · intro h
    by_cases h1 : data.keyThemes.length > 0 <;>
      by_cases h2 : data.bullishPosts.length > 0 <;>
      by_cases h3 : data.bearishPosts.length > 0 <;>
      simp [generateNarrative, h, h1, h2, h3]

/-- C1 witness for the amended count: the empty corpus yields the
single informational bullet, via the theorem at a concrete input. -/
theorem narrative_count_amended_witness :
    (generateNarrative 0 ⟨[], [], [], [], []⟩ "AAPL").length = 1 :=
  (narrative_count_amended 0 ⟨[], [], [], [], []⟩ "AAPL").1 (by decide)

/-- C2 counterexample: the rich summarizer call returns a non-success
status over a non-empty collected corpus, yet the narrow reddit.com
call is never attempted (`narrowAttempted = false`) and the static
5-bullet fallback is returned directly — even though the narrow call
would have yielded bullets. -/
theorem route_fallback_counterexample :
    narrativeRoute "X" (some ⟨[zzzPost], [], [], [], []⟩) CallOutcome.notOk
        (CallOutcome.okContent "• alpha\n• beta\n• gamma\n• delta\n• epsilon")
      = ⟨RouteResult.success (staticFallbackBullets "X"), true, false⟩ := by
  decide

/-- C2 amended: the narrow reddit.com-scoped call is attempted exactly
when the try block throws — Reddit gathering failed, zero posts were
collected, or the rich fetch itself threw; when the rich call returns a
non-success status or succeeds with zero extracted bullets, the narrow
tier is skipped and the static 5-bullet set is returned directly.  When
the narrow call is attempted, a narrow non-success status or empty
extraction yields the static set, and a narrow fetch failure yields the
500 error response instead of static bullets. -/
theorem route_fallback_amended (company : String) (d : SentimentData)
    (rich narrow : CallOutcome) (c : String) :
    (narrativeRoute company none rich narrow
      = ⟨routeCatch company narrow, false, true⟩)
  ∧ ((d.bullishPosts ++ d.bearishPosts ++ d.neutralPosts).length = 0 →
      narrativeRoute company (some d) rich narrow
        = ⟨routeCatch company narrow, false, true⟩)
  ∧ ((d.bullishPosts ++ d.bearishPosts ++ d.neutralPosts).length ≠ 0 →
      (narrativeRoute company (some d) CallOutcome.throws narrow
        = ⟨routeCatch company narrow, true, true⟩)
      ∧ (narrativeRoute company (some d) CallOutcome.notOk narrow
        = ⟨RouteResult.success (staticFallbackBullets company), true, false⟩)
      ∧ (narrativeRoute company (some d) (CallOutcome.okContent c) narrow
        = ⟨routeFinish company (extractBullets c), true, false⟩))
  ∧ routeCatch company CallOutcome.throws = RouteResult.serverError
  ∧ routeCatch company CallOutcome.notOk
      = RouteResult.success (staticFallbackBullets company)
  ∧ routeCatch company (CallOutcome.okContent c)
      = routeFinish company (extractBullets c)
  ∧ (extractBullets c = [] →
      routeFinish company (extractBullets c)
        = RouteResult.success (staticFallbackBullets company))
  ∧ (extractBullets c ≠ [] →
      routeFinish company (extractBullets c)
        = RouteResult.success (extractBullets c)) := by
  refine ⟨rfl, fun h => ?_, fun h => ⟨?_, ?_, ?_⟩, rfl, rfl, rfl, fun h => ?_, fun h => ?_⟩
  · simp only [narrativeRoute]
    rw [if_pos h]
  · simp only [narrativeRoute]
    rw [if_neg h]
  · simp only [narrativeRoute]
    rw [if_neg h]
    rfl
  · simp only [narrativeRoute]
    rw [if_neg h]
  · simp [routeFinish, h]
  · simp [routeFinish, h]

/-- C2 witness for the amended route behaviour: the rich-notOk branch
at a concrete corpus, via the theorem. -/
theorem route_fallback_amended_witness :
    narrativeRoute "NVDA" (some ⟨[zzzPost], [], [], [], []⟩) CallOutcome.notOk
        CallOutcome.notOk
      = ⟨RouteResult.success (staticFallbackBullets "NVDA"), true, false⟩ :=
  ((route_fallback_amended "NVDA" ⟨[zzzPost], [], [], [], []⟩ CallOutcome.notOk
    CallOutcome.notOk "").2.2.1 (by decide)).2.1

/-- C9 counterexample: a reachable corpus (one bullish post with
engagement 5, one bearish post with score -10 and 3 comments, which
passes the engagement filter via its comment count) whose bearish
engagement sum is -7.  The denominator actually used is -7 — not
floored at 1 — and the resulting ratio differs from the
floored-denominator ratio the claim describes. -/
theorem engagement_ratio_counterexample :
    bullishEngagementOf (analyzeSentiment [uvPost, ovPost] "NVDA") = 5
  ∧ bearishEngagementOf (analyzeSentiment [uvPost, ovPost] "NVDA") = -7
  ∧ engagementDenomOf (analyzeSentiment [uvPost, ovPost] "NVDA") = -7
  ∧ ¬(1 ≤ engagementDenomOf (analyzeSentiment [uvPost, ovPost] "NVDA"))
  ∧ engagementRatioOf (analyzeSentiment [uvPost, ovPost] "NVDA")
      ≠ (bullishEngagementOf (analyzeSentiment [uvPost, ovPost] "NVDA") : ℚ)
        / ((max (bearishEngagementOf (analyzeSentiment [uvPost, ovPost] "NVDA")) 1 : Int) : ℚ) := by
  have h5 : bullishEngagementOf (analyzeSentiment [uvPost, ovPost] "NVDA") = 5 := by decide
  have h7 : bearishEngagementOf (analyzeSentiment [uvPost, ovPost] "NVDA") = -7 := by decide
  have hd : engagementDenomOf (analyzeSentiment [uvPost, ovPost] "NVDA") = -7 := by decide
  refine ⟨h5, h7, hd, by rw [hd]; decide, ?_⟩
  rw [engagementRatioOf, h5, h7, hd]
  norm_num

/-- C9 amended: the engagement ratio divides the bullish engagement sum
by the bearish engagement sum with 1 substituted only when that sum is
exactly 0 (the JS `|| 1`); a negative bearish sum is used as-is, so the
denominator is not floored at 1. -/
theorem engagement_ratio_amended (data : SentimentData) :
    engagementDenomOf data
      = (if bearishEngagementOf data = 0 then 1 else bearishEngagementOf data)
  ∧ (bearishEngagementOf data ≠ 0 →
      engagementRatioOf data
        = (bullishEngagementOf data : ℚ) / (bearishEngagementOf data : ℚ))
  ∧ (bearishEngagementOf data = 0 →
      engagementRatioOf data = (bullishEngagementOf data : ℚ)) := by
  refine ⟨rfl, fun h => ?_, fun h => ?_⟩
  · rw [engagementRatioOf, engagementDenomOf, if_neg h]
  · rw [engagementRatioOf, engagementDenomOf, if_pos h]
    norm_num

/-- C9 witness for the amended ratio: the zero-denominator substitution
at a concrete corpus, via the theorem. -/
theorem engagement_ratio_amended_witness :
    engagementRatioOf ⟨[], [], [], [], []⟩
      = (bullishEngagementOf ⟨[], [], [], [], []⟩ : ℚ) :=
  (engagement_ratio_amended ⟨[], [], [], [], []⟩).2.2 (by decide)
